import Mathlib

set_option maxHeartbeats 1000000

/-!
Verification development for the Kaiten knowledge-base migration tool
(`src/migration/kaiten_migration.py`).  The Python code is shallowly
embedded: the rate governor, the transport retry loop, the paginator and
the whole replication pipeline become pure Lean functions over explicit
state and an explicit environment of remote responses.
-/

universe u

/-! ## Paginator (`KaitenAPI.get_paginated`)

The remote transport is modelled as `fetch : Nat → Option (PageResp α)`:
for a requested `offset` it either fails (`none`, the Python `get`
returning `None`) or yields a JSON payload.  The payload shapes that
`get_paginated` distinguishes are a bare array, an object with a `data`
field, or any other object (used as a one-element page when truthy).
The `while True` loop is given explicit fuel; every theorem supplies
enough fuel that the fuel-exhaustion branch is never taken. -/

inductive PageResp (α : Type u) where
  | arr (data : List α)
  | withData (data : List α)
  | single (r : α) (truthy : Bool)
deriving DecidableEq

/-- Normalisation of one page response, as in the body of
`get_paginated`: a list is used directly, a dict with a `data` field
yields that field, any other object is `[response] if response else []`. -/
def normalizeResp {α : Type u} : PageResp α → List α
  | .arr d => d
  | .withData d => d
  | .single r true => [r]
  | .single _ false => []

/-- The pagination loop of `KaitenAPI.get_paginated`.  Returns the
accumulated records together with the list of offsets actually
requested.  A `none` response (transport failure) stops the loop and
returns the accumulator; an empty page stops; a page strictly shorter
than `limit` is appended and then stops; otherwise the offset advances
by `limit`. -/
def get_paginated_go {α : Type u} (fetch : Nat → Option (PageResp α)) (limit : Nat) :
    Nat → Nat → List α → List Nat → List α × List Nat
  | 0, _, acc, offs => (acc, offs)
  | fuel + 1, offset, acc, offs =>
    match fetch offset with
    | none => (acc, offs ++ [offset])
    | some resp =>
      let data := normalizeResp resp
      if data.isEmpty then (acc, offs ++ [offset])
      else if data.length < limit then (acc ++ data, offs ++ [offset])
      else get_paginated_go fetch limit fuel (offset + limit) (acc ++ data) (offs ++ [offset])

/-- Entry point of the paginated fetch: offset starts at 0 with an empty
accumulator, mirroring `get_paginated(endpoint, params, limit=100)`. -/
def get_paginated {α : Type u} (fetch : Nat → Option (PageResp α)) (limit : Nat)
    (fuel : Nat) : List α × List Nat :=
  get_paginated_go fetch limit fuel 0 [] []

/-- A well-behaved source holding exactly the records `src`: a request at
`offset` yields the array slice `src[offset : offset+limit]`. -/
def sliceFetch {α : Type u} (src : List α) (limit : Nat) : Nat → Option (PageResp α) :=
  fun offset => some (.arr ((src.drop offset).take limit))

/-! ## Transport client (`KaitenAPI._request`)

One HTTP attempt is abstracted as an entry of `resp : Nat → RespCase α`
giving the outcome of the i-th attempt: a 429 status, a 2xx with a JSON
body, a 2xx with an empty body, a non-2xx non-429 status (which
`raise_for_status` turns into an `HTTPError`), or a transport-level
exception.  The recursion on 429 (`time.sleep(2)` then
`self._request(method, endpoint, **kwargs)`) is given explicit fuel.
The per-attempt `_rate_limit()` call is modelled separately (see the
rate-governor section). -/

inductive RespCase (α : Type u) where
  | r429
  | okBody (r : α)
  | okEmpty
  | httpErr
  | netErr
deriving DecidableEq

/-- The value `_request` returns to its caller: `None` on error, `{}` on
an empty 2xx body, or the parsed JSON record. -/
inductive ReqResult (α : Type u) where
  | failed
  | emptyBody
  | record (r : α)
deriving DecidableEq

/-- Observable actions of the transport client: issuing one HTTP attempt
(with its method, endpoint and body) or sleeping a number of seconds. -/
inductive ReqEv where
  | attempt (method endpoint : String) (body : Option String)
  | sleepSec (n : Nat)
deriving DecidableEq

/-- The retry loop of `KaitenAPI._request`: on 429 log, sleep 2 seconds
and re-issue the very same request; on any other outcome return.  The
result is paired with the trace of attempts and sleeps. -/
def request_go {α : Type u} (resp : Nat → RespCase α) (method endpoint : String)
    (body : Option String) : Nat → Nat → ReqResult α × List ReqEv
  | 0, _ => (.failed, [])
  | fuel + 1, i =>
    match resp i with
    | .r429 =>
      let rest := request_go resp method endpoint body fuel (i + 1)
      (rest.1, [.attempt method endpoint body, .sleepSec 2] ++ rest.2)
    | .okBody a => (.record a, [.attempt method endpoint body])
    | .okEmpty => (.emptyBody, [.attempt method endpoint body])
    | .httpErr => (.failed, [.attempt method endpoint body])
    | .netErr => (.failed, [.attempt method endpoint body])

/-! ## Identifier map (`KaitenMigration.id_map`)

`self.id_map` is a `defaultdict(dict)`: per entity kind a Python dict
from source id to target id.  Python dicts keep insertion order and a
plain assignment `d[k] = v` replaces the value of an existing key in
place.  The association-list operations below reproduce exactly those
semantics; there is no presence check and no logging anywhere in the
code when a key is written a second time. -/

/-- Association list with Python-dict semantics over `Nat` keys. -/
abbrev PyDict : Type := List (Nat × Nat)

/-- Python `d.get(k)`. -/
def pyGet (m : PyDict) (k : Nat) : Option Nat :=
  (List.find? (fun p => p.1 == k) m).map (fun p => p.2)

/-- Python `d[k] = v`: replace in place if the key exists, else append. -/
def pySet (m : PyDict) (k v : Nat) : PyDict :=
  if List.any m (fun p => p.1 == k) then
    List.map (fun p => if p.1 == k then (k, v) else p) m
  else m ++ [(k, v)]

/-- The entity kinds keyed in `id_map`. -/
inductive MapKind where
  | properties | tags | spaces | boards | columns | lanes | cards
deriving DecidableEq

/-- The identifier map: one dict per entity kind, as in
`self.id_map: Dict[str, Dict[int, int]] = defaultdict(dict)`. -/
structure IdMap where
  properties : PyDict
  tags : PyDict
  spaces : PyDict
  boards : PyDict
  columns : PyDict
  lanes : PyDict
  cards : PyDict
deriving DecidableEq

/-- The empty identifier map a run starts with. -/
def IdMap.empty : IdMap := ⟨[], [], [], [], [], [], []⟩

/-- Projection of the per-kind dict. -/
def IdMap.dict (m : IdMap) : MapKind → PyDict
  | .properties => m.properties
  | .tags => m.tags
  | .spaces => m.spaces
  | .boards => m.boards
  | .columns => m.columns
  | .lanes => m.lanes
  | .cards => m.cards

/-- The write `self.id_map[kind][src] = tgt` (the only way the code ever
records a mapping). -/
def IdMap.insert (m : IdMap) (k : MapKind) (src tgt : Nat) : IdMap :=
  match k with
  | .properties => { m with properties := pySet m.properties src tgt }
  | .tags => { m with tags := pySet m.tags src tgt }
  | .spaces => { m with spaces := pySet m.spaces src tgt }
  | .boards => { m with boards := pySet m.boards src tgt }
  | .columns => { m with columns := pySet m.columns src tgt }
  | .lanes => { m with lanes := pySet m.lanes src tgt }
  | .cards => { m with cards := pySet m.cards src tgt }

/-- The read `self.id_map[kind].get(src)`. -/
def IdMap.lookup (m : IdMap) (k : MapKind) (src : Nat) : Option Nat :=
  pyGet (m.dict k) src

/-! ## Rate governor (`KaitenAPI._rate_limit`)

Timestamps are rationals.  One call observes `now = time.time()`, prunes
entries older than 1 second, and if 5 entries remain sleeps
`1.0 - (now - request_times[0]) + 0.05` seconds, re-reads the clock as
`now2`, re-prunes, and finally appends the current clock value.  The
only assumptions about the real clock are collected in `validFrom`: time
never runs backwards between calls, and `time.sleep(d)` sleeps at least
`d` seconds. -/

structure CallObs where
  now : ℚ
  now2 : ℚ
deriving DecidableEq

/-- The rolling window length: 1 second. -/
def windowDuration : ℚ := 1

/-- The `+ 0.05` safety margin added to the computed sleep. -/
def safetyMargin : ℚ := 1 / 20

/-- The request cap: maximum 5 requests per rolling second. -/
def maxRequests : Nat := 5

/-- `[t for t in self.request_times if now - t < 1.0]`. -/
def pruneWindow (now : ℚ) (ts : List ℚ) : List ℚ :=
  List.filter (fun t => decide (now - t < windowDuration)) ts

/-- `sleep_time = 1.0 - (now - self.request_times[0]) + 0.05`. -/
def sleepTimeOf (now : ℚ) (ts : List ℚ) : ℚ :=
  windowDuration - (now - ts.headD 0) + safetyMargin

/-- The `request_times` list produced by one `_rate_limit()` call whose
clock readings are `o`. -/
def rateLimitCall (ts : List ℚ) (o : CallObs) : List ℚ :=
  if maxRequests ≤ (pruneWindow o.now ts).length then
    if 0 < sleepTimeOf o.now (pruneWindow o.now ts) then
      pruneWindow o.now2 (pruneWindow o.now ts) ++ [o.now2]
    else pruneWindow o.now ts ++ [o.now]
  else pruneWindow o.now ts ++ [o.now]

/-- The timestamp appended by one call (the final value of `now`). -/
def retTime (ts : List ℚ) (o : CallObs) : ℚ :=
  if maxRequests ≤ (pruneWindow o.now ts).length then
    if 0 < sleepTimeOf o.now (pruneWindow o.now ts) then o.now2 else o.now
  else o.now

/-- Clock sanity along a run: each call starts no earlier than the
previous call ended, and when the sleep branch runs the re-read clock
has advanced by at least the requested sleep time. -/
def validFrom : ℚ → List ℚ → List CallObs → Bool
  | _, _, [] => true
  | prev, ts, o :: rest =>
    decide (prev ≤ o.now) &&
    (if maxRequests ≤ (pruneWindow o.now ts).length then
      if 0 < sleepTimeOf o.now (pruneWindow o.now ts) then
        decide (o.now + sleepTimeOf o.now (pruneWindow o.now ts) ≤ o.now2)
      else true
    else true) &&
    validFrom (retTime ts o) (rateLimitCall ts o) rest

/-- All timestamps recorded (appended) along a run of calls. -/
def appendedTimes : List ℚ → List CallObs → List ℚ
  | _, [] => []
  | ts, o :: rest => retTime ts o :: appendedTimes (rateLimitCall ts o) rest

/-- The `request_times` list after each call of a run. -/
def statesAfter : List ℚ → List CallObs → List (List ℚ)
  | _, [] => []
  | ts, o :: rest => rateLimitCall ts o :: statesAfter (rateLimitCall ts o) rest

/-- How many recorded timestamps fall in the rolling window
`(a, a + windowDuration]`. -/
def windowCount (a : ℚ) (ts : List ℚ) : Nat :=
  (List.filter (fun t => decide (a < t) && decide (t ≤ a + windowDuration)) ts).length

/-! ## Replication pipeline (`KaitenMigration`)

The pipeline methods are embedded as state-passing functions.  The
environment `Env` fixes what the two remote systems answer: the source's
pagination results (one list per endpoint, since `get_paginated` is
modelled separately above) and the target's response to the n-th POST of
the run (`Env.post`, consumed through a running counter).  Every
function returns the new state together with the trace of observable
events: POSTs to the target, source fetches, and Run-Ledger counter
writes. -/

/-- Per-kind counters of `self.stats`. -/
structure KindStats where
  total : Nat
  migrated : Nat
  failed : Nat
deriving DecidableEq

/-- The seven entity kinds keyed in `self.stats`. -/
inductive Kind where
  | spaces | boards | cards | comments | checklists | tags | custom_properties
deriving DecidableEq

/-- The whole `self.stats` dictionary. -/
structure Stats where
  spaces : KindStats
  boards : KindStats
  cards : KindStats
  comments : KindStats
  checklists : KindStats
  tags : KindStats
  custom_properties : KindStats
deriving DecidableEq

/-- All counters start at zero. -/
def KindStats.zero : KindStats := ⟨0, 0, 0⟩

/-- The initial statistics of a run. -/
def Stats.start : Stats := ⟨.zero, .zero, .zero, .zero, .zero, .zero, .zero⟩

/-- Reading one kind's counters. -/
def Stats.get (s : Stats) : Kind → KindStats
  | .spaces => s.spaces
  | .boards => s.boards
  | .cards => s.cards
  | .comments => s.comments
  | .checklists => s.checklists
  | .tags => s.tags
  | .custom_properties => s.custom_properties

/-- Replacing one kind's counters. -/
def Stats.set (s : Stats) : Kind → KindStats → Stats
  | .spaces, v => { s with spaces := v }
  | .boards, v => { s with boards := v }
  | .cards, v => { s with cards := v }
  | .comments, v => { s with comments := v }
  | .checklists, v => { s with checklists := v }
  | .tags, v => { s with tags := v }
  | .custom_properties, v => { s with custom_properties := v }

/-- `self.stats[k]['total'] = n` (also the result of `+=` with the sum
already computed). -/
def Stats.setTotal (s : Stats) (k : Kind) (n : Nat) : Stats :=
  s.set k { s.get k with total := n }

/-- `self.stats[k]['migrated'] += 1`. -/
def Stats.incMigrated (s : Stats) (k : Kind) : Stats :=
  s.set k { s.get k with migrated := (s.get k).migrated + 1 }

/-- `self.stats[k]['failed'] += 1`. -/
def Stats.incFailed (s : Stats) (k : Kind) : Stats :=
  s.set k { s.get k with failed := (s.get k).failed + 1 }

/-- Source record of `/custom-properties`. -/
structure PropSrc where
  id : Nat
  name : Option String
  ptype : Option String
  settings : Option (List (String × String))
deriving DecidableEq

/-- Source record of `/tags`. -/
structure TagSrc where
  id : Nat
  name : Option String
  color : Option Nat
deriving DecidableEq

/-- Source record of `/spaces`; `archived` is the truthiness of
`space.get('archived')`. -/
structure SpaceSrc where
  id : Nat
  title : Option String
  archived : Bool
  access : Option String
deriving DecidableEq

/-- Source record of `/spaces/{id}/boards`. -/
structure BoardSrc where
  id : Nat
  title : Option String
  description : Option String
deriving DecidableEq

/-- A column inside the board-details payload. -/
structure ColumnSrc where
  id : Nat
  title : Option String
  ctype : Option Nat
  sort_order : Option Nat
deriving DecidableEq

/-- A lane inside the board-details payload. -/
structure LaneSrc where
  id : Nat
  title : Option String
  sort_order : Option Nat
deriving DecidableEq

/-- The `GET /boards/{id}` payload: its `columns` and `lanes` fields. -/
structure BoardDetails where
  columns : List ColumnSrc
  lanes : List LaneSrc
deriving DecidableEq

/-- A tag reference inside a card (`tag.get('id')`). -/
structure TagRef where
  id : Option Nat
deriving DecidableEq

/-- Source record of `/cards`. -/
structure CardSrc where
  id : Nat
  title : Option String
  description : Option String
  board_id : Option Nat
  column_id : Option Nat
  lane_id : Option Nat
  asap : Option Bool
  due_date : Option String
  size_text : Option String
  properties : List (String × String)
  tags : List TagRef
deriving DecidableEq

/-- Source record of `/cards/{id}/comments`. -/
structure CommentSrc where
  text : Option String
deriving DecidableEq

/-- An item of a source checklist. -/
structure ChecklistItemSrc where
  text : Option String
  checked : Option Bool
deriving DecidableEq

/-- Source record of `/cards/{id}/checklists`. -/
structure ChecklistSrc where
  name : Option String
  items : List ChecklistItemSrc
deriving DecidableEq

/-- Source record of `/cards/{id}/children` (`child.get('id')`). -/
structure ChildSrc where
  id : Option Nat
deriving DecidableEq

/-- Payload of `POST /custom-properties`. -/
structure NewProp where
  name : String
  ptype : Option String
  settings : List (String × String)
deriving DecidableEq

/-- Payload of `POST /tags`. -/
structure NewTag where
  name : String
  color : Option Nat
deriving DecidableEq

/-- Payload of `POST /spaces`. -/
structure NewSpace where
  title : String
  access : String
deriving DecidableEq

/-- Payload of `POST /boards`. -/
structure NewBoard where
  title : String
  description : String
  space_id : Nat
deriving DecidableEq

/-- Payload of `POST /columns`. -/
structure NewColumn where
  board_id : Nat
  title : String
  ctype : Nat
  sort_order : Nat
deriving DecidableEq

/-- Payload of `POST /lanes`. -/
structure NewLane where
  board_id : Nat
  title : String
  sort_order : Nat
deriving DecidableEq

/-- Payload of `POST /cards`; `lane_id = none` is the JSON null the code
sends when the lane is absent or unmapped; `properties = none` means the
key is left out entirely. -/
structure NewCard where
  title : String
  description : Option String
  board_id : Nat
  column_id : Nat
  lane_id : Option Nat
  asap : Bool
  due_date : Option String
  size_text : Option String
  properties : Option (List (String × String))
deriving DecidableEq

/-- Payload of `POST /card-checklists`. -/
structure NewChecklist where
  card_id : Nat
  name : String
deriving DecidableEq

/-- Payload of `POST /card-checklist-items`. -/
structure NewChecklistItem where
  checklist_id : Nat
  text : String
  checked : Bool
deriving DecidableEq

/-- A JSON object answered to a POST: `failed` is the `None` that
`_request` returns on error; `obj truthy idField` is a returned dict
with its truthiness (an empty dict is falsy) and its `id` field. -/
inductive PostResp where
  | failed
  | obj (truthy : Bool) (idField : Option Nat)
deriving DecidableEq

/-- The test `result and 'id' in result` (and the extraction of
`result['id']`); a dict holding a key is never empty, hence truthy. -/
def resultId : PostResp → Option Nat
  | .obj true (some i) => some i
  | _ => none

/-- The test `if result:`. -/
def resultTruthy : PostResp → Bool
  | .obj t _ => t
  | .failed => false

/-- Python truthiness of an optional integer: `None` and `0` are falsy. -/
def truthyOptNat : Option Nat → Bool
  | none => false
  | some n => !(n == 0)

/-- `d.get(k)` when the key itself may be `None` (then no entry exists). -/
def pyGetOpt (m : PyDict) : Option Nat → Option Nat
  | none => none
  | some k => pyGet m k

/-- Observable events of a migration run. -/
inductive Ev where
  | postProp (srcId : Nat) (payload : NewProp)
  | postTag (srcId : Nat) (payload : NewTag)
  | postSpace (srcId : Nat) (payload : NewSpace)
  | postBoard (srcId : Nat) (payload : NewBoard)
  | postColumn (srcId : Nat) (payload : NewColumn)
  | postLane (srcId : Nat) (payload : NewLane)
  | postCard (srcId : Nat) (payload : NewCard)
  | postCardTag (newCardId tagId : Nat)
  | postComment (newCardId : Nat) (text : String)
  | postChecklist (payload : NewChecklist)
  | postChecklistItem (payload : NewChecklistItem)
  | postChildLink (newCardId childId : Nat)
  | fetchBoards (spaceSrcId : Nat)
  | fetchBoardDetails (boardSrcId : Nat)
  | fetchComments (cardSrcId : Nat)
  | fetchChecklists (cardSrcId : Nat)
  | fetchChildren (cardSrcId : Nat)
  | totalWrite (k : Kind) (newValue : Nat)
  | migratedInc (k : Kind)
  | failedInc (k : Kind)
deriving DecidableEq

/-- Mutable state of a `KaitenMigration` run: the identifier map, the
statistics, and the cursor into the POST-response oracle. -/
structure MigState where
  idMap : IdMap
  stats : Stats
  postCount : Nat
deriving DecidableEq

/-- Fresh state at the start of `migrate_all`. -/
def MigState.start : MigState := ⟨IdMap.empty, Stats.start, 0⟩

/-- Everything the two remote systems answer during a run. -/
structure Env where
  custom_properties : List PropSrc
  tags : List TagSrc
  spaces : List SpaceSrc
  boardsOf : Nat → List BoardSrc
  boardDetails : Nat → Option BoardDetails
  cards : List CardSrc
  commentsOf : Nat → List CommentSrc
  checklistsOf : Nat → List ChecklistSrc
  childrenOf : Nat → List ChildSrc
  post : Nat → PostResp

/-- A `for` loop over source records, threading the state and
concatenating the event traces. -/
def runAll {α : Type} (f : MigState → α → MigState × List Ev) :
    MigState → List α → MigState × List Ev
  | st, [] => (st, [])
  | st, x :: xs =>
    let r1 := f st x
    let r2 := runAll f r1.1 xs
    (r2.1, r1.2 ++ r2.2)

/-- One iteration of the loop of `migrate_custom_properties`. -/
def migrateOneProp (env : Env) (st : MigState) (p : PropSrc) : MigState × List Ev :=
  let prop_name := p.name.getD (String.append "Property " (toString p.id))
  let new_prop : NewProp := ⟨prop_name, p.ptype, p.settings.getD []⟩
  let resp := env.post st.postCount
  let stp : MigState := { st with postCount := st.postCount + 1 }
  match resultId resp with
  | some newId =>
    ({ stp with
        idMap := stp.idMap.insert MapKind.properties p.id newId
        stats := stp.stats.incMigrated Kind.custom_properties },
      [.postProp p.id new_prop, .migratedInc .custom_properties])
  | none =>
    ({ stp with stats := stp.stats.incFailed Kind.custom_properties },
      [.postProp p.id new_prop, .failedInc .custom_properties])

/-- `migrate_custom_properties`: set the total to the number of fetched
records, then create each property on the target. -/
def migrate_custom_properties (env : Env) (st : MigState) : MigState × List Ev :=
  let props := env.custom_properties
  let st1 := { st with stats := st.stats.setTotal Kind.custom_properties props.length }
  let r := runAll (migrateOneProp env) st1 props
  (r.1, .totalWrite .custom_properties props.length :: r.2)

/-- One iteration of the loop of `migrate_tags`. -/
def migrateOneTag (env : Env) (st : MigState) (t : TagSrc) : MigState × List Ev :=
  let tag_name := t.name.getD (String.append "Tag " (toString t.id))
  let new_tag : NewTag := ⟨tag_name, t.color⟩
  let resp := env.post st.postCount
  let stp : MigState := { st with postCount := st.postCount + 1 }
  match resultId resp with
  | some newId =>
    ({ stp with
        idMap := stp.idMap.insert MapKind.tags t.id newId
        stats := stp.stats.incMigrated Kind.tags },
      [.postTag t.id new_tag, .migratedInc .tags])
  | none =>
    ({ stp with stats := stp.stats.incFailed Kind.tags },
      [.postTag t.id new_tag, .failedInc .tags])

/-- `migrate_tags`. -/
def migrate_tags (env : Env) (st : MigState) : MigState × List Ev :=
  let tags := env.tags
  let st1 := { st with stats := st.stats.setTotal Kind.tags tags.length }
  let r := runAll (migrateOneTag env) st1 tags
  (r.1, .totalWrite .tags tags.length :: r.2)

/-- One column of `migrate_columns_and_lanes` (no statistics are kept
for columns). -/
def migrateOneColumn (env : Env) (new_board_id : Nat) (st : MigState)
    (c : ColumnSrc) : MigState × List Ev :=
  let new_col : NewColumn :=
    ⟨new_board_id, c.title.getD "", c.ctype.getD 1, c.sort_order.getD 0⟩
  let resp := env.post st.postCount
  let stp : MigState := { st with postCount := st.postCount + 1 }
  match resultId resp with
  | some newId =>
    ({ stp with idMap := stp.idMap.insert MapKind.columns c.id newId },
      [.postColumn c.id new_col])
  | none => (stp, [.postColumn c.id new_col])

/-- One lane of `migrate_columns_and_lanes`. -/
def migrateOneLane (env : Env) (new_board_id : Nat) (st : MigState)
    (l : LaneSrc) : MigState × List Ev :=
  let new_lane : NewLane := ⟨new_board_id, l.title.getD "", l.sort_order.getD 0⟩
  let resp := env.post st.postCount
  let stp : MigState := { st with postCount := st.postCount + 1 }
  match resultId resp with
  | some newId =>
    ({ stp with idMap := stp.idMap.insert MapKind.lanes l.id newId },
      [.postLane l.id new_lane])
  | none => (stp, [.postLane l.id new_lane])

/-- `migrate_columns_and_lanes`: all columns, then all lanes of one
board's details payload. -/
def migrate_columns_and_lanes (env : Env) (st : MigState) (new_board_id : Nat)
    (board_data : BoardDetails) : MigState × List Ev :=
  let rc := runAll (migrateOneColumn env new_board_id) st board_data.columns
  let rl := runAll (migrateOneLane env new_board_id) rc.1 board_data.lanes
  (rl.1, rc.2 ++ rl.2)

/-- One board of `migrate_boards_in_space`: create it, and on success
fetch its details and migrate its columns and lanes under the freshly
mapped board id. -/
def migrateOneBoard (env : Env) (new_space_id : Nat) (st : MigState)
    (b : BoardSrc) : MigState × List Ev :=
  let board_title := b.title.getD (String.append "Board " (toString b.id))
  let new_board : NewBoard := ⟨board_title, b.description.getD "", new_space_id⟩
  let resp := env.post st.postCount
  let stp : MigState := { st with postCount := st.postCount + 1 }
  match resultId resp with
  | some newId =>
    let st2 := { stp with
        idMap := stp.idMap.insert MapKind.boards b.id newId
        stats := stp.stats.incMigrated Kind.boards }
    match env.boardDetails b.id with
    | some details =>
      let rcl := migrate_columns_and_lanes env st2 newId details
      (rcl.1, [.postBoard b.id new_board, .migratedInc .boards,
        .fetchBoardDetails b.id] ++ rcl.2)
    | none =>
      (st2, [.postBoard b.id new_board, .migratedInc .boards,
        .fetchBoardDetails b.id])
  | none =>
    ({ stp with stats := stp.stats.incFailed Kind.boards },
      [.postBoard b.id new_board, .failedInc .boards])

/-- `migrate_boards_in_space`: fetch the space's boards, add them to the
boards total (`+=`), and migrate each. -/
def migrate_boards_in_space (env : Env) (st : MigState)
    (old_space_id new_space_id : Nat) : MigState × List Ev :=
  let boards := env.boardsOf old_space_id
  let newTotal := (st.stats.get Kind.boards).total + boards.length
  let st1 := { st with stats := st.stats.setTotal Kind.boards newTotal }
  let r := runAll (migrateOneBoard env new_space_id) st1 boards
  (r.1, .fetchBoards old_space_id :: .totalWrite .boards newTotal :: r.2)

/-- One space of `migrate_spaces_and_boards`: an archived space is
skipped outright; otherwise it is created and, on success, its boards
are migrated under the new space id. -/
def migrateOneSpace (env : Env) (st : MigState) (s : SpaceSrc) :
    MigState × List Ev :=
  if s.archived then (st, [])
  else
    let space_title := s.title.getD (String.append "Space " (toString s.id))
    let new_space : NewSpace := ⟨space_title, s.access.getD "private"⟩
    let resp := env.post st.postCount
    let stp : MigState := { st with postCount := st.postCount + 1 }
    match resultId resp with
    | none =>
      ({ stp with stats := stp.stats.incFailed Kind.spaces },
        [.postSpace s.id new_space, .failedInc .spaces])
    | some new_space_id =>
      let st2 := { stp with
          idMap := stp.idMap.insert MapKind.spaces s.id new_space_id
          stats := stp.stats.incMigrated Kind.spaces }
      let rb := migrate_boards_in_space env st2 s.id new_space_id
      (rb.1, [.postSpace s.id new_space, .migratedInc .spaces] ++ rb.2)

/-- `migrate_spaces_and_boards`. -/
def migrate_spaces_and_boards (env : Env) (st : MigState) : MigState × List Ev :=
  let spaces := env.spaces
  let st1 := { st with stats := st.stats.setTotal Kind.spaces spaces.length }
  let r := runAll (migrateOneSpace env) st1 spaces
  (r.1, .totalWrite .spaces spaces.length :: r.2)

/-- `migrate_card_tags`: attach each of the card's tags whose id maps to
a truthy target id (the response is ignored). -/
def migrate_card_tags (env : Env) (st : MigState) (new_card_id : Nat)
    (tags : List TagRef) : MigState × List Ev :=
  runAll (fun st tg =>
    let new_tag_id := pyGetOpt st.idMap.tags tg.id
    if truthyOptNat new_tag_id then
      let resp := env.post st.postCount
      let stp : MigState := { st with postCount := st.postCount + 1 }
      (stp, [.postCardTag new_card_id (new_tag_id.getD 0)])
    else (st, [])) st tags

/-- The rewriting of the card's custom-property keys: `id_<old>` becomes
`id_<new>` when the property id is mapped, and is dropped otherwise.
A key whose second `_`-segment is not a number raises `ValueError` in
Python and aborts the run; no claim exercises that case and it is
modelled as dropping the key. -/
def rewriteProps (propMap : PyDict) (props : List (String × String)) :
    List (String × String) :=
  props.foldl (fun acc kv =>
    if kv.1.startsWith "id_" then
      match (((kv.1.splitOn "_").getD 1 "").toNat?) with
      | some old_prop_id =>
        match pyGet propMap old_prop_id with
        | some new_prop_id =>
          acc ++ [(String.append "id_" (toString new_prop_id), kv.2)]
        | none => acc
      | none => acc
    else acc) []

/-- The `new_card` payload built by `migrate_single_card` once the board
and column guards have passed. -/
def newCardPayload (st : MigState) (card : CardSrc)
    (new_board_id new_column_id : Nat) (new_lane_id : Option Nat) : NewCard :=
  let base : NewCard :=
    ⟨card.title.getD (String.append "Card " (toString card.id)),
      card.description, new_board_id, new_column_id, new_lane_id,
      card.asap.getD false, card.due_date, card.size_text, none⟩
  let new_properties := rewriteProps st.idMap.properties card.properties
  if card.properties ≠ [] ∧ new_properties ≠ [] then
    { base with properties := some new_properties }
  else base

/-- `migrate_single_card`: skip (and count failed) when the board or the
column id has no truthy mapping; otherwise create the card — with
`lane_id` silently null when the lane is absent or unmapped — and on
success record the mapping and attach the card's tags. -/
def migrate_single_card (env : Env) (st : MigState) (card : CardSrc) :
    MigState × List Ev :=
  let new_board_id := pyGetOpt st.idMap.boards card.board_id
  if ¬ truthyOptNat new_board_id then
    ({ st with stats := st.stats.incFailed Kind.cards }, [.failedInc .cards])
  else
    let new_column_id := pyGetOpt st.idMap.columns card.column_id
    let new_lane_id :=
      if truthyOptNat card.lane_id then pyGetOpt st.idMap.lanes card.lane_id
      else none
    if ¬ truthyOptNat new_column_id then
      ({ st with stats := st.stats.incFailed Kind.cards }, [.failedInc .cards])
    else
      let new_card := newCardPayload st card (new_board_id.getD 0)
        (new_column_id.getD 0) new_lane_id
      let resp := env.post st.postCount
      let stp : MigState := { st with postCount := st.postCount + 1 }
      match resultId resp with
      | some newId =>
        let st2 := { stp with
            idMap := stp.idMap.insert MapKind.cards card.id newId
            stats := stp.stats.incMigrated Kind.cards }
        let rt := migrate_card_tags env st2 newId card.tags
        (rt.1, [.postCard card.id new_card, .migratedInc .cards] ++ rt.2)
      | none =>
        ({ stp with stats := stp.stats.incFailed Kind.cards },
          [.postCard card.id new_card, .failedInc .cards])

/-- `migrate_cards`. -/
def migrate_cards (env : Env) (st : MigState) : MigState × List Ev :=
  let cards := env.cards
  let st1 := { st with stats := st.stats.setTotal Kind.cards cards.length }
  let r := runAll (migrate_single_card env) st1 cards
  (r.1, .totalWrite .cards cards.length :: r.2)

/-- One comment: post it under the new card id; mere truthiness of the
response decides migrated versus failed. -/
def migrateOneComment (env : Env) (new_card_id : Nat) (st : MigState)
    (c : CommentSrc) : MigState × List Ev :=
  let text := c.text.getD ""
  let resp := env.post st.postCount
  let stp : MigState := { st with postCount := st.postCount + 1 }
  if resultTruthy resp then
    ({ stp with stats := stp.stats.incMigrated Kind.comments },
      [.postComment new_card_id text, .migratedInc .comments])
  else
    ({ stp with stats := stp.stats.incFailed Kind.comments },
      [.postComment new_card_id text, .failedInc .comments])

/-- One card's entry of the `migrate_comments` loop: fetch its comments,
add them to the comments total (`+=`), then post each. -/
def migrateCommentsOfCard (env : Env) (st : MigState) (pair : Nat × Nat) :
    MigState × List Ev :=
  let comments := env.commentsOf pair.1
  let newTotal := (st.stats.get Kind.comments).total + comments.length
  let st1 := { st with stats := st.stats.setTotal Kind.comments newTotal }
  let r := runAll (migrateOneComment env pair.2) st1 comments
  (r.1, .fetchComments pair.1 :: .totalWrite .comments newTotal :: r.2)

/-- `migrate_comments`: iterate `self.id_map['cards'].items()`. -/
def migrate_comments (env : Env) (st : MigState) : MigState × List Ev :=
  runAll (migrateCommentsOfCard env) st st.idMap.cards

/-- One checklist: create it; on success (a response with an id) post
its items under the fresh checklist id, ignoring their responses. -/
def migrateOneChecklist (env : Env) (new_card_id : Nat) (st : MigState)
    (cl : ChecklistSrc) : MigState × List Ev :=
  let new_checklist : NewChecklist := ⟨new_card_id, cl.name.getD ""⟩
  let resp := env.post st.postCount
  let stp : MigState := { st with postCount := st.postCount + 1 }
  match resultId resp with
  | some new_checklist_id =>
    let st2 := { stp with stats := stp.stats.incMigrated Kind.checklists }
    let ri := runAll (fun st item =>
      let new_item : NewChecklistItem :=
        ⟨new_checklist_id, item.text.getD "", item.checked.getD false⟩
      let respi := env.post st.postCount
      let stpi : MigState := { st with postCount := st.postCount + 1 }
      (stpi, [.postChecklistItem new_item])) st2 cl.items
    (ri.1, [.postChecklist new_checklist, .migratedInc .checklists] ++ ri.2)
  | none =>
    ({ stp with stats := stp.stats.incFailed Kind.checklists },
      [.postChecklist new_checklist, .failedInc .checklists])

/-- One card's entry of the `migrate_checklists` loop. -/
def migrateChecklistsOfCard (env : Env) (st : MigState) (pair : Nat × Nat) :
    MigState × List Ev :=
  let checklists := env.checklistsOf pair.1
  let newTotal := (st.stats.get Kind.checklists).total + checklists.length
  let st1 := { st with stats := st.stats.setTotal Kind.checklists newTotal }
  let r := runAll (migrateOneChecklist env pair.2) st1 checklists
  (r.1, .fetchChecklists pair.1 :: .totalWrite .checklists newTotal :: r.2)

/-- `migrate_checklists`. -/
def migrate_checklists (env : Env) (st : MigState) : MigState × List Ev :=
  runAll (migrateChecklistsOfCard env) st st.idMap.cards

/-- One card's entry of the `migrate_card_relations` loop: link each
child whose id maps to a truthy target id.  The `migrated`/`failed`
counts here are local variables in the code, not part of `self.stats`. -/
def migrateRelationsOfCard (env : Env) (st : MigState) (pair : Nat × Nat) :
    MigState × List Ev :=
  let r := runAll (fun st child =>
    let new_child_id := pyGetOpt st.idMap.cards child.id
    if truthyOptNat new_child_id then
      let resp := env.post st.postCount
      let stp : MigState := { st with postCount := st.postCount + 1 }
      (stp, [.postChildLink pair.2 (new_child_id.getD 0)])
    else (st, [])) st (env.childrenOf pair.1)
  (r.1, .fetchChildren pair.1 :: r.2)

/-- `migrate_card_relations`. -/
def migrate_card_relations (env : Env) (st : MigState) : MigState × List Ev :=
  runAll (migrateRelationsOfCard env) st st.idMap.cards

/-- `migrate_all`: the seven stages in their fixed order, with the traces
concatenated. -/
def migrate_all (env : Env) (st : MigState) : MigState × List Ev :=
  let r1 := migrate_custom_properties env st
  let r2 := migrate_tags env r1.1
  let r3 := migrate_spaces_and_boards env r2.1
  let r4 := migrate_cards env r3.1
  let r5 := migrate_comments env r4.1
  let r6 := migrate_checklists env r5.1
  let r7 := migrate_card_relations env r6.1
  (r7.1, r1.2 ++ r2.2 ++ r3.2 ++ r4.2 ++ r5.2 ++ r6.2 ++ r7.2)

/-- The pipeline stage (0–6) that a creation call belongs to, following
the dependency order of `migrate_all`; `none` for fetches and ledger
writes. -/
def createStage : Ev → Option Nat
  | .postProp _ _ => some 0
  | .postTag _ _ => some 1
  | .postSpace _ _ => some 2
  | .postBoard _ _ => some 2
  | .postColumn _ _ => some 2
  | .postLane _ _ => some 2
  | .postCard _ _ => some 3
  | .postCardTag _ _ => some 3
  | .postComment _ _ => some 4
  | .postChecklist _ => some 5
  | .postChecklistItem _ => some 5
  | .postChildLink _ _ => some 6
  | _ => none

/-- The kind written by a `totalWrite` event, if the event is one. -/
def twKind : Ev → Option Kind
  | .totalWrite k _ => some k
  | _ => none

/-- How many writes a run makes to one kind's `total` counter. -/
def countTotalWrites (k : Kind) (tr : List Ev) : Nat :=
  (tr.filter (fun e => decide (twKind e = some k))).length

/-- Replay of one ledger event on the statistics; non-ledger events
change nothing. -/
def applyEv (s : Stats) (e : Ev) : Stats :=
  match e with
  | .totalWrite k n => s.setTotal k n
  | .migratedInc k => s.incMigrated k
  | .failedInc k => s.incFailed k
  | _ => s

/-- Replay of a whole event trace on the statistics. -/
def applyEvs (s : Stats) (tr : List Ev) : Stats := tr.foldl applyEv s

/-- Stage discipline of one event: every creation call it makes belongs
to stage `i`, and every `total` write touches one of the `allowed`
kinds. -/
def stageOK (i : Nat) (allowed : List Kind) (e : Ev) : Prop :=
  (∀ c, createStage e = some c → c = i) ∧ (∀ k, twKind e = some k → k ∈ allowed)

/-- A source with one archived and one live space, no boards, a target
answering every POST with id 77. -/
def envTwoSpaces : Env :=
  ⟨[], [], [⟨1, some "Arch", true, none⟩, ⟨2, some "Live", false, none⟩],
    fun _ => [], fun _ => none, [], fun _ => [], fun _ => [], fun _ => [],
    fun _ => .obj true (some 77)⟩

/-- A source with two live spaces of one board each, a target answering
every POST with id 99. -/
def envTwoLiveSpaces : Env :=
  ⟨[], [], [⟨1, none, false, none⟩, ⟨2, none, false, none⟩],
    fun sid => [⟨10 * sid, none, none⟩], fun _ => none, [], fun _ => [],
    fun _ => [], fun _ => [], fun _ => .obj true (some 99)⟩

/-- A state whose identifier map knows board 3 → 8 and column 4 → 9 but
no lanes. -/
def stWithMaps : MigState := ⟨⟨[], [], [], [(3, 8)], [(4, 9)], [], []⟩, Stats.start, 0⟩

/-- A card on board 3, column 4, with the (unmapped) lane 7. -/
def cardLane7 : CardSrc :=
  ⟨5, none, none, some 3, some 4, some 7, none, none, none, [], []⟩

/-- C2: for a source holding exactly 250 records and page size 100,
`get_paginated` issues exactly 3 page requests (at offsets 0, 100, 200,
returning pages of 100, 100 and 50 records), includes the final short
page, and returns all 250 records in the source's original order; in
general the loop stops when a page is empty and stops (after appending
the page) when a page is strictly shorter than the page size. -/
theorem get_paginated_250_three_pages {α : Type u} (src : List α) (fuel : Nat)
    (hlen : src.length = 250) (hfuel : 3 ≤ fuel) :
    get_paginated (sliceFetch src 100) 100 fuel = (src, [0, 100, 200]) ∧
    (∀ (fetch : Nat → Option (PageResp α)) (limit offset f : Nat) (acc : List α)
      (offs : List Nat) (resp : PageResp α),
      fetch offset = some resp → (normalizeResp resp).isEmpty →
      get_paginated_go fetch limit (f + 1) offset acc offs = (acc, offs ++ [offset])) ∧
    (∀ (fetch : Nat → Option (PageResp α)) (limit offset f : Nat) (acc : List α)
      (offs : List Nat) (resp : PageResp α),
      fetch offset = some resp → ¬ (normalizeResp resp).isEmpty →
      (normalizeResp resp).length < limit →
      get_paginated_go fetch limit (f + 1) offset acc offs =
        (acc ++ normalizeResp resp, offs ++ [offset])) := by
  refine ⟨?_, ?_, ?_⟩
  · obtain ⟨k, rfl⟩ : ∃ k, fuel = k + 1 + 1 + 1 := ⟨fuel - 3, by omega⟩
    show get_paginated_go _ _ (k + 1 + 1 + 1) 0 [] [] = _
    simp only [get_paginated_go, sliceFetch, normalizeResp]
    norm_num [List.isEmpty_iff_length_eq_zero, List.length_take, List.length_drop,
      List.drop_zero, hlen]
    have h200 : src.drop 200 = (src.drop 100).drop 100 := by
      rw [List.drop_drop]
    rw [h200, ← List.take_add, ← List.take_add,
      if_neg (by simp only [List.drop_zero, List.isEmpty_iff_length_eq_zero,
        List.length_take, hlen]; omega),
      List.take_of_length_le (by omega : src.length ≤ 100 + (100 + 100))]
  · intro fetch limit offset f acc offs resp hresp hempty
    simp only [get_paginated_go, hresp]
    rw [if_pos hempty]
  · intro fetch limit offset f acc offs resp hresp hne hshort
    simp only [get_paginated_go, hresp]
    rw [if_neg hne, if_pos hshort]

/-- Witness for C2 at the concrete source `List.range 250`. -/
theorem get_paginated_250_three_pages_witness :
    (List.range 250).length = 250 ∧ 3 ≤ 3 ∧
    get_paginated (sliceFetch (List.range 250) 100) 100 3 = (List.range 250, [0, 100, 200]) :=
  ⟨by simp, by omega,
    (get_paginated_250_three_pages (List.range 250) 3 (by simp) (by omega)).1⟩

/-- Offsets requested by the pagination loop, shifted by one page: helper
for reasoning about the offset trace of `get_paginated_go`. -/
theorem offsets_shift (off limit n : Nat) :
    List.map (fun i => off + limit * i) (List.range (n + 1 + 1)) =
      off :: List.map (fun i => off + limit + limit * i) (List.range (n + 1)) := by
  rw [List.range_succ_eq_map, List.map_cons, List.map_map]
  simp only [Nat.mul_zero, Nat.add_zero]
  congr 1
  apply List.map_congr_left
  intro a _
  simp only [Function.comp_apply, Nat.succ_eq_add_one]
  ring

/-- C7: if the transport succeeds on `k` full pages and then fails on the
next page request, `get_paginated` stops and returns the records
accumulated from those `k` pages as a normal (possibly incomplete)
result, not an error; exactly `k + 1` requests are issued, at offsets
`off, off + limit, …, off + k·limit`. -/
theorem get_paginated_partial_on_failure {α : Type u} (pages : List (List α))
    (fetch : Nat → Option (PageResp α)) (limit off : Nat) (acc : List α)
    (offs : List Nat) (fuel : Nat)
    (hlim : 0 < limit)
    (hfull : ∀ p ∈ pages, p.length = limit)
    (hfetch : ∀ i, (hi : i < pages.length) →
      fetch (off + limit * i) = some (.arr (pages.get ⟨i, hi⟩)))
    (hfail : fetch (off + limit * pages.length) = none)
    (hfuel : pages.length + 1 ≤ fuel) :
    get_paginated_go fetch limit fuel off acc offs =
      (acc ++ pages.flatten,
        offs ++ (List.range (pages.length + 1)).map (fun i => off + limit * i)) := by
  induction pages generalizing off acc offs fuel with
  | nil =>
      obtain ⟨f, rfl⟩ : ∃ f, fuel = f + 1 := ⟨fuel - 1, by omega⟩
      have h0 : fetch off = none := by simpa using hfail
      simp [get_paginated_go, h0, List.range_succ]
  | cons p ps ih =>
      obtain ⟨f, rfl⟩ : ∃ f, fuel = f + 1 := ⟨fuel - 1, by omega⟩
      have hp : fetch off = some (.arr p) := by
        have h := hfetch 0 (by simp)
        simpa using h
      have hplen : p.length = limit := hfull p (by simp)
      have hfull' : ∀ q ∈ ps, q.length = limit :=
        fun q hq => hfull q (List.mem_cons_of_mem _ hq)
      have hfetch' : ∀ i, (hi : i < ps.length) →
          fetch (off + limit + limit * i) = some (.arr (ps.get ⟨i, hi⟩)) := by
        intro i hi
        have h := hfetch (i + 1) (by simp only [List.length_cons]; omega)
        rw [show off + limit * (i + 1) = off + limit + limit * i from by ring] at h
        simpa using h
      have hfail' : fetch (off + limit + limit * ps.length) = none := by
        have h := hfail
        rw [List.length_cons,
          show off + limit * (ps.length + 1) = off + limit + limit * ps.length from by
            ring] at h
        exact h
      have hfuel' : ps.length + 1 ≤ f := by
        simp only [List.length_cons] at hfuel
        omega
      simp only [get_paginated_go, hp, normalizeResp]
      rw [if_neg (by simp only [List.isEmpty_iff_length_eq_zero, hplen]; omega),
        if_neg (by omega)]
      rw [ih (off + limit) (acc ++ p) (offs ++ [off]) f hfull' hfetch' hfail' hfuel']
      simp only [Prod.mk.injEq]
      constructor
      · simp
      · rw [List.length_cons, offsets_shift]
        simp [List.append_assoc]

/-- Witness for C7: two full pages of size 2 succeed, the third request
fails; the paginator returns the four accumulated records. -/
theorem get_paginated_partial_on_failure_witness :
    (0 < 2 ∧
      (∀ p ∈ [[1, 2], [3, 4]], List.length p = 2) ∧
      (∀ i, (hi : i < ([[1, 2], [3, 4]] : List (List Nat)).length) →
        (fun off => if off = 0 then some (PageResp.arr [1, 2])
          else if off = 2 then some (PageResp.arr [3, 4]) else none) (0 + 2 * i) =
          some (.arr (([[1, 2], [3, 4]] : List (List Nat)).get ⟨i, hi⟩)) ) ∧
      (fun off => if off = 0 then some (PageResp.arr [1, 2])
          else if off = 2 then some (PageResp.arr [3, 4]) else none)
        (0 + 2 * ([[1, 2], [3, 4]] : List (List Nat)).length) = none ∧
      ([[1, 2], [3, 4]] : List (List Nat)).length + 1 ≤ 3) ∧
    get_paginated_go
      (fun off => if off = 0 then some (PageResp.arr [1, 2])
        else if off = 2 then some (PageResp.arr [3, 4]) else none) 2 3 0 [] [] =
      ([] ++ ([[1, 2], [3, 4]] : List (List Nat)).flatten,
        [] ++ (List.range (([[1, 2], [3, 4]] : List (List Nat)).length + 1)).map
          (fun i => 0 + 2 * i)) :=
  ⟨⟨by omega, by decide, by decide, by decide, by decide⟩,
    get_paginated_partial_on_failure [[1, 2], [3, 4]] _ 2 0 [] [] 3
      (by omega) (by decide) (by decide) (by decide) (by decide)⟩

/-- C5: when the transport answers 429 on the first attempt and 200 with
a record on the second, `_request` sleeps 2 seconds between the two
attempts, re-issues the same method, endpoint and body, and returns the
successful record, so the caller observes exactly one successful record
and never sees the 429. -/
theorem request_429_then_200 {α : Type u} (resp : Nat → RespCase α)
    (method endpoint : String) (body : Option String) (r : α) (fuel : Nat)
    (h0 : resp 0 = .r429) (h1 : resp 1 = .okBody r) (hfuel : 2 ≤ fuel) :
    request_go resp method endpoint body fuel 0 =
      (.record r,
        [.attempt method endpoint body, .sleepSec 2,
          .attempt method endpoint body]) := by
  obtain ⟨k, rfl⟩ : ∃ k, fuel = k + 1 + 1 := ⟨fuel - 2, by omega⟩
  simp [request_go, h0, h1]

/-- Witness for C5 with a concrete two-attempt response schedule. -/
theorem request_429_then_200_witness :
    (fun i => if i = 0 then RespCase.r429 else RespCase.okBody 42) 0 = .r429 ∧
    (fun i => if i = 0 then RespCase.r429 else RespCase.okBody 42) 1 = .okBody 42 ∧
    2 ≤ 2 ∧
    request_go (fun i => if i = 0 then RespCase.r429 else RespCase.okBody 42)
        "POST" (String.append "/card" "s") (some "data") 2 0 =
      (.record 42,
        [.attempt "POST" (String.append "/card" "s") (some "data"), .sleepSec 2,
          .attempt "POST" (String.append "/card" "s") (some "data")]) :=
  ⟨by decide, by decide, by omega,
    request_429_then_200 _ "POST" (String.append "/card" "s") (some "data") 42 2
      (by decide) (by decide) (by omega)⟩

/-- Counterexample for C3: recording `(properties, 1) → 10` and then
`(properties, 1) → 20` silently overwrites — afterwards the lookup
yields 20, not the originally stored 10, and no flagging of any kind
exists in the code. -/
theorem idmap_second_write_overwrites_cex :
    ((IdMap.empty.insert .properties 1 10).insert .properties 1 20).lookup
        .properties 1 = some 20 ∧
    ((IdMap.empty.insert .properties 1 10).insert .properties 1 20).lookup
        .properties 1 ≠ some 10 := by
  constructor
  · rfl
  · intro h
    simp [IdMap.empty, IdMap.insert, IdMap.lookup, IdMap.dict, pySet, pyGet,
      List.find?] at h

/-- Writing a key always makes the lookup of that key yield the new
value (helper for the amended C3). -/
theorem pyGet_pySet (m : PyDict) (k v : Nat) : pyGet (pySet m k v) k = some v := by
  induction m with
  | nil => simp [pySet, pyGet, List.find?]
  | cons p t ih =>
      by_cases hpk : p.1 = k
      · simp [pySet, List.any_cons, hpk, pyGet, List.find?]
      · have hne : (p.1 == k) = false := by simp [hpk]
        have hcons : pySet (p :: t) k v = p :: pySet t k v := by
          simp only [pySet, List.any_cons, hne, Bool.false_or]
          by_cases ht : List.any t (fun q => q.1 == k)
          · simp [ht, hpk]
          · simp [ht, hpk]
        rw [hcons]
        simpa [pyGet, List.find?, hne] using ih

/-- C3 (amended): a second `id_map` write for the same kind and source id
silently overwrites the first entry — the lookup afterwards yields the
second target id; no flagging, logging, or preservation of the original
entry happens. -/
theorem idmap_second_write_overwrites (m : IdMap) (k : MapKind) (src x y : Nat) :
    ((m.insert k src x).insert k src y).lookup k src = some y := by
  cases k <;>
    simp [IdMap.insert, IdMap.lookup, IdMap.dict, pyGet_pySet]

/-- Filtering by a stronger predicate yields at most as many elements. -/
theorem filter_length_mono {α : Type u} (l : List α) (p q : α → Bool)
    (h : ∀ x, p x = true → q x = true) :
    (l.filter p).length ≤ (l.filter q).length := by
  induction l with
  | nil => simp
  | cons a t ih =>
      cases hpa : p a
      · cases hqa : q a <;> simp [List.filter_cons, hpa, hqa] <;> omega
      · have hqa := h a hpa
        simp [List.filter_cons, hpa, hqa]
        omega

/-- Filtering strictly shrinks a list containing an element that fails
the predicate. -/
theorem filter_length_lt {α : Type u} (p : α → Bool) (l : List α) (a : α)
    (ha : a ∈ l) (hpa : p a = false) :
    (l.filter p).length < l.length := by
  induction l with
  | nil => simp at ha
  | cons b t ih =>
      rcases List.mem_cons.mp ha with rfl | hat
      · simp only [List.filter_cons, hpa]
        have := List.length_filter_le p t
        simp
        omega
      · cases hpb : p b
        · simp only [List.filter_cons, hpb]
          have := List.length_filter_le p t
          simp
          omega
        · simp only [List.filter_cons, hpb]
          have := ih hat
          simp
          omega

/-- Pruning twice at non-decreasing clocks is pruning at the later one. -/
theorem pruneWindow_pruneWindow (p n : ℚ) (h : List ℚ) (hpn : p ≤ n) :
    pruneWindow n (pruneWindow p h) = pruneWindow n h := by
  unfold pruneWindow
  rw [List.filter_filter]
  apply List.filter_congr
  intro a _
  by_cases hna : n - a < windowDuration
  · have hpa : p - a < windowDuration := by linarith
    simp [hna, hpa]
  · simp [hna]

/-- Pruning at `n` keeps a freshly appended `n`. -/
theorem pruneWindow_append_self (n : ℚ) (h : List ℚ) :
    pruneWindow n (h ++ [n]) = pruneWindow n h ++ [n] := by
  unfold pruneWindow
  rw [List.filter_append]
  simp [windowDuration]

/-- Appending one in-window timestamp keeps every rolling window at or
below the cap, provided the pruned history leaves room for it. -/
theorem windowCount_append (hist : List ℚ) (r : ℚ)
    (hroom : (pruneWindow r hist).length + 1 ≤ maxRequests)
    (hwin : ∀ a : ℚ, windowCount a hist ≤ maxRequests) :
    ∀ a : ℚ, windowCount a (hist ++ [r]) ≤ maxRequests := by
  intro a
  unfold windowCount
  rw [List.filter_append, List.length_append]
  by_cases hr : (decide (a < r) && decide (r ≤ a + windowDuration)) = true
  · have hcnt : windowCount a hist ≤ (pruneWindow r hist).length := by
      apply filter_length_mono
      intro t ht
      rw [Bool.and_eq_true, decide_eq_true_eq, decide_eq_true_eq] at ht hr
      rw [decide_eq_true_eq]
      linarith [ht.1, ht.2, hr.1, hr.2]
    unfold windowCount at hcnt
    have hfil : List.filter
        (fun t => decide (a < t) && decide (t ≤ a + windowDuration)) [r] = [r] := by
      simp [List.filter_cons, hr]
    rw [hfil]
    simp only [List.length_cons, List.length_nil]
    omega
  · rw [Bool.not_eq_true] at hr
    have hfil : List.filter
        (fun t => decide (a < t) && decide (t ≤ a + windowDuration)) [r] = [] := by
      simp [List.filter_cons, hr]
    rw [hfil]
    have := hwin a
    unfold windowCount at this
    simp only [List.length_nil]
    omega

/-- Invariant of the rate governor run: the live list is exactly the
pruned history, it never exceeds the cap, and no rolling window of the
recorded history exceeds the cap. -/
theorem rateLimit_invariant (obs : List CallObs) :
    ∀ (prev : ℚ) (hist state : List ℚ),
    state = pruneWindow prev hist →
    state.length ≤ maxRequests →
    (∀ a : ℚ, windowCount a hist ≤ maxRequests) →
    validFrom prev state obs = true →
    (∀ a : ℚ, windowCount a (hist ++ appendedTimes state obs) ≤ maxRequests) ∧
    (∀ s ∈ statesAfter state obs, s.length ≤ maxRequests) := by
  induction obs with
  | nil =>
      intro prev hist state hstate hlen hwin _
      refine ⟨fun a => ?_, fun s hs => ?_⟩
      · simpa [appendedTimes] using hwin a
      · simp [statesAfter] at hs
  | cons o rest ih =>
      intro prev hist state hstate hlen hwin hvalid
      simp only [validFrom, Bool.and_eq_true, decide_eq_true_eq] at hvalid
      obtain ⟨⟨hprev, hsleepOK⟩, hrest⟩ := hvalid
      have hts1 : pruneWindow o.now state = pruneWindow o.now hist := by
        rw [hstate, pruneWindow_pruneWindow _ _ _ hprev]
      have hlen1 : (pruneWindow o.now state).length ≤ maxRequests :=
        le_trans (List.length_filter_le _ _) hlen
      by_cases hcap : maxRequests ≤ (pruneWindow o.now state).length
      · -- sleep branch
        have hne : pruneWindow o.now state ≠ [] := by
          intro h0
          rw [h0] at hcap
          simp [maxRequests] at hcap
        have hmem : (pruneWindow o.now state).headD 0 ∈ pruneWindow o.now state := by
          cases h0 : pruneWindow o.now state with
          | nil => exact absurd h0 hne
          | cons x xs => simp [List.headD]
        have hhead : o.now - (pruneWindow o.now state).headD 0 < windowDuration := by
          have := List.of_mem_filter hmem
          simpa [pruneWindow] using this
        have hpos : 0 < sleepTimeOf o.now (pruneWindow o.now state) := by
          unfold sleepTimeOf safetyMargin
          linarith
        rw [if_pos hcap, if_pos hpos] at hsleepOK
        rw [decide_eq_true_eq] at hsleepOK
        have hle2 : o.now ≤ o.now2 := by linarith
        have hcall : rateLimitCall state o =
            pruneWindow o.now2 (pruneWindow o.now state) ++ [o.now2] := by
          unfold rateLimitCall
          rw [if_pos hcap, if_pos hpos]
        have hret : retTime state o = o.now2 := by
          unfold retTime
          rw [if_pos hcap, if_pos hpos]
        have hheadfail :
            (decide (o.now2 - (pruneWindow o.now state).headD 0 < windowDuration)) =
              false := by
          rw [decide_eq_false_iff_not]
          intro hcon
          unfold sleepTimeOf safetyMargin windowDuration at hsleepOK
          unfold windowDuration at hcon
          linarith
        have hshrunk : (pruneWindow o.now2 (pruneWindow o.now state)).length <
            (pruneWindow o.now state).length :=
          filter_length_lt _ _ _ hmem hheadfail
        have hnewlen : (rateLimitCall state o).length ≤ maxRequests := by
          rw [hcall, List.length_append]
          simp only [List.length_cons, List.length_nil]
          omega
        have hnewstate : rateLimitCall state o =
            pruneWindow o.now2 (hist ++ [o.now2]) := by
          rw [hcall, hts1, pruneWindow_pruneWindow _ _ _ hle2,
            pruneWindow_append_self]
        have hnewwin : ∀ a : ℚ, windowCount a (hist ++ [o.now2]) ≤ maxRequests := by
          apply windowCount_append
          · have heq : pruneWindow o.now2 (pruneWindow o.now state) =
                pruneWindow o.now2 hist := by
              rw [hts1, pruneWindow_pruneWindow _ _ _ hle2]
            rw [← heq]
            omega
          · exact hwin
        have ihres := ih o.now2 (hist ++ [o.now2]) (rateLimitCall state o)
          hnewstate hnewlen hnewwin (by rw [← hret]; exact hrest)
        constructor
        · intro a
          have := ihres.1 a
          simp only [appendedTimes, hret]
          rw [show hist ++ (o.now2 :: appendedTimes (rateLimitCall state o) rest) =
            (hist ++ [o.now2]) ++ appendedTimes (rateLimitCall state o) rest by
              simp]
          exact this
        · intro s hs
          simp only [statesAfter, List.mem_cons] at hs
          rcases hs with rfl | hs
          · exact hnewlen
          · exact ihres.2 s hs
      · -- below the cap: append `now` directly
        have hlen4 : (pruneWindow o.now state).length + 1 ≤ maxRequests := by
          omega
        have hcall : rateLimitCall state o = pruneWindow o.now state ++ [o.now] := by
          unfold rateLimitCall
          rw [if_neg hcap]
        have hret : retTime state o = o.now := by
          unfold retTime
          rw [if_neg hcap]
        have hnewlen : (rateLimitCall state o).length ≤ maxRequests := by
          rw [hcall, List.length_append]
          simp only [List.length_cons, List.length_nil]
          omega
        have hnewstate : rateLimitCall state o =
            pruneWindow o.now (hist ++ [o.now]) := by
          rw [hcall, hts1, pruneWindow_append_self]
        have hnewwin : ∀ a : ℚ, windowCount a (hist ++ [o.now]) ≤ maxRequests := by
          apply windowCount_append
          · rw [← hts1]
            omega
          · exact hwin
        have ihres := ih o.now (hist ++ [o.now]) (rateLimitCall state o)
          hnewstate hnewlen hnewwin (by rw [← hret]; exact hrest)
        constructor
        · intro a
          have := ihres.1 a
          simp only [appendedTimes, hret]
          rw [show hist ++ (o.now :: appendedTimes (rateLimitCall state o) rest) =
            (hist ++ [o.now]) ++ appendedTimes (rateLimitCall state o) rest by
              simp]
          exact this
        · intro s hs
          simp only [statesAfter, List.mem_cons] at hs
          rcases hs with rfl | hs
          · exact hnewlen
          · exact ihres.2 s hs

/-- C1: along any valid sequence of `_rate_limit()` calls starting from
an empty `request_times`, every rolling 1-second window of real time
contains at most `maxRequests = 5` recorded timestamps, and after each
call the pruned `request_times` list has length at most 5. -/
theorem rate_limit_window_bound (obs : List CallObs) (prev0 : ℚ)
    (hvalid : validFrom prev0 [] obs = true) :
    (∀ a : ℚ, windowCount a (appendedTimes [] obs) ≤ maxRequests) ∧
    (∀ s ∈ statesAfter [] obs, s.length ≤ maxRequests) := by
  have h := rateLimit_invariant obs prev0 [] []
    (by simp [pruneWindow]) (by simp [maxRequests])
    (fun a => by simp [windowCount]) hvalid
  refine ⟨fun a => ?_, h.2⟩
  have := h.1 a
  simpa using this

/-- Witness for C1: five calls at time 0 fill the window; the sixth call
(also observing time 0) sleeps 1.05 s and wakes at time 2, by which
point the old entries have left the window. -/
theorem rate_limit_window_bound_witness :
    validFrom 0 []
        [⟨0, 0⟩, ⟨0, 0⟩, ⟨0, 0⟩, ⟨0, 0⟩, ⟨0, 0⟩, ⟨0, 2⟩] = true ∧
    windowCount 0 (appendedTimes []
        [⟨0, 0⟩, ⟨0, 0⟩, ⟨0, 0⟩, ⟨0, 0⟩, ⟨0, 0⟩, ⟨0, 2⟩]) ≤ maxRequests :=
  ⟨by norm_num [validFrom, rateLimitCall, retTime, pruneWindow, sleepTimeOf,
      windowDuration, safetyMargin, maxRequests, List.filter],
    (rate_limit_window_bound
        [⟨0, 0⟩, ⟨0, 0⟩, ⟨0, 0⟩, ⟨0, 0⟩, ⟨0, 0⟩, ⟨0, 2⟩] 0
        (by norm_num [validFrom, rateLimitCall, retTime, pruneWindow, sleepTimeOf,
          windowDuration, safetyMargin, maxRequests, List.filter])).1 0⟩

theorem applyEvs_append (s : Stats) (t1 t2 : List Ev) :
    applyEvs s (t1 ++ t2) = applyEvs (applyEvs s t1) t2 := by
  unfold applyEvs
  exact List.foldl_append _ _ _ _

theorem countTotalWrites_append (k : Kind) (t1 t2 : List Ev) :
    countTotalWrites k (t1 ++ t2) =
      countTotalWrites k t1 + countTotalWrites k t2 := by
  unfold countTotalWrites
  rw [List.filter_append, List.length_append]

theorem countTotalWrites_eq_zero (k : Kind) (tr : List Ev)
    (h : ∀ e ∈ tr, twKind e ≠ some k) : countTotalWrites k tr = 0 := by
  unfold countTotalWrites
  rw [List.length_eq_zero, List.filter_eq_nil]
  intro e he
  simpa using h e he

/-- Every event of a `runAll` trace satisfies `P` when every event of
each single iteration does. -/
theorem runAll_ev_pred {α : Type} (f : MigState → α → MigState × List Ev)
    (P : Ev → Prop) (hf : ∀ st x, ∀ e ∈ (f st x).2, P e) :
    ∀ (xs : List α) (st : MigState), ∀ e ∈ (runAll f st xs).2, P e := by
  intro xs
  induction xs with
  | nil => intro st e he; simp [runAll] at he
  | cons x xs ih =>
      intro st e he
      simp only [runAll, List.mem_append] at he
      rcases he with h | h
      · exact hf st x e h
      · exact ih _ e h

/-- The state's statistics after a `runAll` are the replay of its event
trace, when that holds of each single iteration. -/
theorem runAll_stats {α : Type} (f : MigState → α → MigState × List Ev)
    (hf : ∀ st x, (f st x).1.stats = applyEvs st.stats (f st x).2) :
    ∀ (xs : List α) (st : MigState),
      (runAll f st xs).1.stats = applyEvs st.stats (runAll f st xs).2 := by
  intro xs
  induction xs with
  | nil => intro st; simp [runAll, applyEvs]
  | cons x xs ih =>
      intro st
      simp only [runAll]
      rw [applyEvs_append, ← hf st x]
      exact ih _

/-- Weakening of the allowed totalWrite kinds. -/
theorem stageOK_mono {i : Nat} {a b : List Kind} (hab : ∀ k, k ∈ a → k ∈ b)
    {e : Ev} (h : stageOK i a e) : stageOK i b e :=
  ⟨h.1, fun k hk => hab k (h.2 k hk)⟩

theorem migrateOneProp_stats (env : Env) (st : MigState) (p : PropSrc) :
    (migrateOneProp env st p).1.stats =
      applyEvs st.stats (migrateOneProp env st p).2 := by
  simp only [migrateOneProp]
  cases hres : resultId (env.post st.postCount) <;>
    simp [hres, applyEvs, applyEv]

theorem migrateOneProp_ev (env : Env) (st : MigState) (p : PropSrc) :
    ∀ e ∈ (migrateOneProp env st p).2, stageOK 0 [] e := by
  simp only [migrateOneProp]
  cases hres : resultId (env.post st.postCount) <;>
  · intro e he
    simp [hres] at he
    rcases he with rfl | rfl <;> simp [stageOK, createStage, twKind]

theorem migrate_custom_properties_stats (env : Env) (st : MigState) :
    (migrate_custom_properties env st).1.stats =
      applyEvs st.stats (migrate_custom_properties env st).2 := by
  simp only [migrate_custom_properties]
  exact (runAll_stats (migrateOneProp env) (migrateOneProp_stats env)
    env.custom_properties _).trans rfl

theorem migrate_custom_properties_ev (env : Env) (st : MigState) :
    ∀ e ∈ (migrate_custom_properties env st).2,
      stageOK 0 [Kind.custom_properties] e := by
  simp only [migrate_custom_properties]
  intro e he
  simp only [List.mem_cons] at he
  rcases he with rfl | he
  · simp [stageOK, createStage, twKind]
  · exact stageOK_mono (fun k hk => by simp at hk)
      (runAll_ev_pred _ _ (migrateOneProp_ev env) _ _ e he)

theorem migrateOneTag_stats (env : Env) (st : MigState) (t : TagSrc) :
    (migrateOneTag env st t).1.stats =
      applyEvs st.stats (migrateOneTag env st t).2 := by
  simp only [migrateOneTag]
  cases hres : resultId (env.post st.postCount) <;>
    simp [hres, applyEvs, applyEv]

theorem migrate_tags_stats (env : Env) (st : MigState) :
    (migrate_tags env st).1.stats = applyEvs st.stats (migrate_tags env st).2 := by
  simp only [migrate_tags]
  exact (runAll_stats (migrateOneTag env) (migrateOneTag_stats env)
    env.tags _).trans rfl

theorem migrateOneColumn_stats (env : Env) (bid : Nat) (st : MigState)
    (c : ColumnSrc) :
    (migrateOneColumn env bid st c).1.stats =
      applyEvs st.stats (migrateOneColumn env bid st c).2 := by
  simp only [migrateOneColumn]
  cases hres : resultId (env.post st.postCount) <;>
    simp [hres, applyEvs, applyEv]

theorem migrateOneLane_stats (env : Env) (bid : Nat) (st : MigState)
    (l : LaneSrc) :
    (migrateOneLane env bid st l).1.stats =
      applyEvs st.stats (migrateOneLane env bid st l).2 := by
  simp only [migrateOneLane]
  cases hres : resultId (env.post st.postCount) <;>
    simp [hres, applyEvs, applyEv]

theorem migrate_columns_and_lanes_stats (env : Env) (st : MigState) (bid : Nat)
    (bd : BoardDetails) :
    (migrate_columns_and_lanes env st bid bd).1.stats =
      applyEvs st.stats (migrate_columns_and_lanes env st bid bd).2 := by
  simp only [migrate_columns_and_lanes]
  rw [applyEvs_append,
    ← runAll_stats (migrateOneColumn env bid) (migrateOneColumn_stats env bid)
      bd.columns st]
  exact runAll_stats (migrateOneLane env bid) (migrateOneLane_stats env bid)
    bd.lanes _

theorem migrateOneBoard_stats (env : Env) (sid : Nat) (st : MigState)
    (b : BoardSrc) :
    (migrateOneBoard env sid st b).1.stats =
      applyEvs st.stats (migrateOneBoard env sid st b).2 := by
  simp only [migrateOneBoard]
  cases hres : resultId (env.post st.postCount)
  · simp [hres, applyEvs, applyEv]
  · cases hbd : env.boardDetails b.id
    · simp [hres, hbd, applyEvs, applyEv]
    · simp only [hres, hbd]
      rw [show ((Ev.postBoard b.id _ :: Ev.migratedInc Kind.boards ::
          Ev.fetchBoardDetails b.id :: []) ++ _) = _ from rfl]
      rw [applyEvs_append]
      exact (migrate_columns_and_lanes_stats env _ _ _).trans (by rfl)

theorem migrate_boards_in_space_stats (env : Env) (st : MigState)
    (osid nsid : Nat) :
    (migrate_boards_in_space env st osid nsid).1.stats =
      applyEvs st.stats (migrate_boards_in_space env st osid nsid).2 := by
  simp only [migrate_boards_in_space]
  exact (runAll_stats (migrateOneBoard env nsid) (migrateOneBoard_stats env nsid)
    (env.boardsOf osid) _).trans rfl

theorem migrateOneSpace_stats (env : Env) (st : MigState) (s : SpaceSrc) :
    (migrateOneSpace env st s).1.stats =
      applyEvs st.stats (migrateOneSpace env st s).2 := by
  simp only [migrateOneSpace]
  by_cases harch : s.archived = true
  · simp [harch, applyEvs]
  · rw [Bool.not_eq_true] at harch
    cases hres : resultId (env.post st.postCount)
    · simp [harch, hres, applyEvs, applyEv]
    · simp only [harch, hres, Bool.false_eq_true, if_false]
      rw [applyEvs_append]
      exact (migrate_boards_in_space_stats env _ _ _).trans (by rfl)

theorem migrate_spaces_and_boards_stats (env : Env) (st : MigState) :
    (migrate_spaces_and_boards env st).1.stats =
      applyEvs st.stats (migrate_spaces_and_boards env st).2 := by
  simp only [migrate_spaces_and_boards]
  exact (runAll_stats (migrateOneSpace env) (migrateOneSpace_stats env)
    env.spaces _).trans rfl

theorem migrate_card_tags_stats (env : Env) (st : MigState) (ncid : Nat)
    (tags : List TagRef) :
    (migrate_card_tags env st ncid tags).1.stats =
      applyEvs st.stats (migrate_card_tags env st ncid tags).2 := by
  simp only [migrate_card_tags]
  apply runAll_stats
  intro st tg
  cases htr : truthyOptNat (pyGetOpt st.idMap.tags tg.id) <;>
    simp [htr, applyEvs, applyEv]

theorem migrate_single_card_stats (env : Env) (st : MigState) (card : CardSrc) :
    (migrate_single_card env st card).1.stats =
      applyEvs st.stats (migrate_single_card env st card).2 := by
  simp only [migrate_single_card]
  by_cases hb : truthyOptNat (pyGetOpt st.idMap.boards card.board_id) = true
  · by_cases hc : truthyOptNat (pyGetOpt st.idMap.columns card.column_id) = true
    · cases hres : resultId (env.post st.postCount)
      · simp [hb, hc, hres, applyEvs, applyEv]
      · simp only [hb, hc, hres, not_true, if_false]
        rw [applyEvs_append]
        exact (migrate_card_tags_stats env _ _ _).trans (by rfl)
    · simp [hb, hc, applyEvs, applyEv]
  · simp [hb, applyEvs, applyEv]

theorem migrate_cards_stats (env : Env) (st : MigState) :
    (migrate_cards env st).1.stats = applyEvs st.stats (migrate_cards env st).2 := by
  simp only [migrate_cards]
  exact (runAll_stats (migrate_single_card env) (migrate_single_card_stats env)
    env.cards _).trans rfl

theorem migrateOneComment_stats (env : Env) (ncid : Nat) (st : MigState)
    (c : CommentSrc) :
    (migrateOneComment env ncid st c).1.stats =
      applyEvs st.stats (migrateOneComment env ncid st c).2 := by
  simp only [migrateOneComment]
  cases htr : resultTruthy (env.post st.postCount) <;>
    simp [htr, applyEvs, applyEv]

theorem migrateCommentsOfCard_stats (env : Env) (st : MigState)
    (pair : Nat × Nat) :
    (migrateCommentsOfCard env st pair).1.stats =
      applyEvs st.stats (migrateCommentsOfCard env st pair).2 := by
  simp only [migrateCommentsOfCard]
  exact (runAll_stats (migrateOneComment env pair.2)
    (migrateOneComment_stats env pair.2) (env.commentsOf pair.1) _).trans rfl

theorem migrate_comments_stats (env : Env) (st : MigState) :
    (migrate_comments env st).1.stats =
      applyEvs st.stats (migrate_comments env st).2 := by
  simp only [migrate_comments]
  exact runAll_stats (migrateCommentsOfCard env)
    (migrateCommentsOfCard_stats env) st.idMap.cards st

theorem migrateOneChecklist_stats (env : Env) (ncid : Nat) (st : MigState)
    (cl : ChecklistSrc) :
    (migrateOneChecklist env ncid st cl).1.stats =
      applyEvs st.stats (migrateOneChecklist env ncid st cl).2 := by
  simp only [migrateOneChecklist]
  cases hres : resultId (env.post st.postCount)
  · simp [hres, applyEvs, applyEv]
  · simp only [hres]
    rw [applyEvs_append]
    refine Eq.trans (runAll_stats _ ?_ cl.items _) (by rfl)
    intro st item
    simp [applyEvs, applyEv]

theorem migrateChecklistsOfCard_stats (env : Env) (st : MigState)
    (pair : Nat × Nat) :
    (migrateChecklistsOfCard env st pair).1.stats =
      applyEvs st.stats (migrateChecklistsOfCard env st pair).2 := by
  simp only [migrateChecklistsOfCard]
  exact (runAll_stats (migrateOneChecklist env pair.2)
    (migrateOneChecklist_stats env pair.2) (env.checklistsOf pair.1) _).trans rfl

theorem migrate_checklists_stats (env : Env) (st : MigState) :
    (migrate_checklists env st).1.stats =
      applyEvs st.stats (migrate_checklists env st).2 := by
  simp only [migrate_checklists]
  exact runAll_stats (migrateChecklistsOfCard env)
    (migrateChecklistsOfCard_stats env) st.idMap.cards st

theorem migrateRelationsOfCard_stats (env : Env) (st : MigState)
    (pair : Nat × Nat) :
    (migrateRelationsOfCard env st pair).1.stats =
      applyEvs st.stats (migrateRelationsOfCard env st pair).2 := by
  simp only [migrateRelationsOfCard]
  refine Eq.trans ?_ (by rfl)
  apply runAll_stats
  intro st child
  cases htr : truthyOptNat (pyGetOpt st.idMap.cards child.id) <;>
    simp [htr, applyEvs, applyEv]

theorem migrate_card_relations_stats (env : Env) (st : MigState) :
    (migrate_card_relations env st).1.stats =
      applyEvs st.stats (migrate_card_relations env st).2 := by
  simp only [migrate_card_relations]
  exact runAll_stats (migrateRelationsOfCard env)
    (migrateRelationsOfCard_stats env) st.idMap.cards st

theorem migrate_all_stats (env : Env) (st : MigState) :
    (migrate_all env st).1.stats = applyEvs st.stats (migrate_all env st).2 := by
  simp only [migrate_all]
  rw [applyEvs_append, applyEvs_append, applyEvs_append, applyEvs_append,
    applyEvs_append, applyEvs_append,
    ← migrate_custom_properties_stats, ← migrate_tags_stats,
    ← migrate_spaces_and_boards_stats, ← migrate_cards_stats,
    ← migrate_comments_stats, ← migrate_checklists_stats]
  exact migrate_card_relations_stats env _

theorem migrateOneTag_ev (env : Env) (st : MigState) (t : TagSrc) :
    ∀ e ∈ (migrateOneTag env st t).2, stageOK 1 [] e := by
  simp only [migrateOneTag]
  cases hres : resultId (env.post st.postCount) <;>
  · intro e he
    simp [hres] at he
    rcases he with rfl | rfl <;> simp [stageOK, createStage, twKind]

theorem migrate_tags_ev (env : Env) (st : MigState) :
    ∀ e ∈ (migrate_tags env st).2, stageOK 1 [Kind.tags] e := by
  simp only [migrate_tags]
  intro e he
  simp only [List.mem_cons] at he
  rcases he with rfl | he
  · simp [stageOK, createStage, twKind]
  · exact stageOK_mono (fun k hk => by simp at hk)
      (runAll_ev_pred _ _ (migrateOneTag_ev env) _ _ e he)

theorem migrateOneColumn_ev (env : Env) (bid : Nat) (st : MigState)
    (c : ColumnSrc) :
    ∀ e ∈ (migrateOneColumn env bid st c).2, stageOK 2 [] e := by
  simp only [migrateOneColumn]
  cases hres : resultId (env.post st.postCount) <;>
  · intro e he
    simp [hres] at he
    subst he
    simp [stageOK, createStage, twKind]

theorem migrateOneLane_ev (env : Env) (bid : Nat) (st : MigState) (l : LaneSrc) :
    ∀ e ∈ (migrateOneLane env bid st l).2, stageOK 2 [] e := by
  simp only [migrateOneLane]
  cases hres : resultId (env.post st.postCount) <;>
  · intro e he
    simp [hres] at he
    subst he
    simp [stageOK, createStage, twKind]

theorem migrate_columns_and_lanes_ev (env : Env) (st : MigState) (bid : Nat)
    (bd : BoardDetails) :
    ∀ e ∈ (migrate_columns_and_lanes env st bid bd).2, stageOK 2 [] e := by
  simp only [migrate_columns_and_lanes]
  intro e he
  simp only [List.mem_append] at he
  rcases he with he | he
  · exact runAll_ev_pred _ _ (migrateOneColumn_ev env bid) _ _ e he
  · exact runAll_ev_pred _ _ (migrateOneLane_ev env bid) _ _ e he

theorem migrateOneBoard_ev (env : Env) (sid : Nat) (st : MigState) (b : BoardSrc) :
    ∀ e ∈ (migrateOneBoard env sid st b).2, stageOK 2 [] e := by
  simp only [migrateOneBoard]
  cases hres : resultId (env.post st.postCount)
  · intro e he
    simp [hres] at he
    rcases he with rfl | rfl <;> simp [stageOK, createStage, twKind]
  · cases hbd : env.boardDetails b.id
    · intro e he
      simp [hres, hbd] at he
      rcases he with rfl | rfl | rfl <;> simp [stageOK, createStage, twKind]
    · intro e he
      simp only [hres, hbd, List.mem_append, List.mem_cons,
        List.not_mem_nil, or_false] at he
      rcases he with (rfl | rfl | rfl) | he
      · simp [stageOK, createStage, twKind]
      · simp [stageOK, createStage, twKind]
      · simp [stageOK, createStage, twKind]
      · exact migrate_columns_and_lanes_ev env _ _ _ e he

theorem migrate_boards_in_space_ev (env : Env) (st : MigState)
    (osid nsid : Nat) :
    ∀ e ∈ (migrate_boards_in_space env st osid nsid).2,
      stageOK 2 [Kind.boards] e := by
  simp only [migrate_boards_in_space]
  intro e he
  simp only [List.mem_cons] at he
  rcases he with rfl | rfl | he
  · simp [stageOK, createStage, twKind]
  · simp [stageOK, createStage, twKind]
  · exact stageOK_mono (fun k hk => by simp at hk)
      (runAll_ev_pred _ _ (migrateOneBoard_ev env nsid) _ _ e he)

theorem migrateOneSpace_ev (env : Env) (st : MigState) (s : SpaceSrc) :
    ∀ e ∈ (migrateOneSpace env st s).2, stageOK 2 [Kind.boards] e := by
  simp only [migrateOneSpace]
  by_cases harch : s.archived = true
  · simp [harch]
  · rw [Bool.not_eq_true] at harch
    cases hres : resultId (env.post st.postCount)
    · intro e he
      simp [harch, hres] at he
      rcases he with rfl | rfl <;> simp [stageOK, createStage, twKind]
    · intro e he
      simp only [harch, hres, Bool.false_eq_true, if_false, List.mem_append,
        List.mem_cons, List.not_mem_nil, or_false] at he
      rcases he with (rfl | rfl) | he
      · simp [stageOK, createStage, twKind]
      · simp [stageOK, createStage, twKind]
      · exact migrate_boards_in_space_ev env _ _ _ e he

theorem migrate_spaces_and_boards_ev (env : Env) (st : MigState) :
    ∀ e ∈ (migrate_spaces_and_boards env st).2,
      stageOK 2 [Kind.spaces, Kind.boards] e := by
  simp only [migrate_spaces_and_boards]
  intro e he
  simp only [List.mem_cons] at he
  rcases he with rfl | he
  · simp [stageOK, createStage, twKind]
  · refine stageOK_mono ?_ (runAll_ev_pred _ _ (migrateOneSpace_ev env) _ _ e he)
    intro k hk
    simp only [List.mem_cons, List.not_mem_nil, or_false] at hk
    simp [hk]

theorem migrate_card_tags_ev (env : Env) (st : MigState) (ncid : Nat)
    (tags : List TagRef) :
    ∀ e ∈ (migrate_card_tags env st ncid tags).2, stageOK 3 [] e := by
  simp only [migrate_card_tags]
  apply runAll_ev_pred
  intro st tg e he
  cases htr : truthyOptNat (pyGetOpt st.idMap.tags tg.id) <;> simp [htr] at he
  subst he
  simp [stageOK, createStage, twKind]

theorem migrate_single_card_ev (env : Env) (st : MigState) (card : CardSrc) :
    ∀ e ∈ (migrate_single_card env st card).2, stageOK 3 [] e := by
  simp only [migrate_single_card]
  by_cases hb : truthyOptNat (pyGetOpt st.idMap.boards card.board_id) = true
  · by_cases hc : truthyOptNat (pyGetOpt st.idMap.columns card.column_id) = true
    · cases hres : resultId (env.post st.postCount)
      · intro e he
        simp [hb, hc, hres] at he
        rcases he with rfl | rfl <;> simp [stageOK, createStage, twKind]
      · intro e he
        simp only [hb, hc, hres, not_true, if_false, List.mem_append,
          List.mem_cons, List.not_mem_nil, or_false] at he
        rcases he with (rfl | rfl) | he
        · simp [stageOK, createStage, twKind]
        · simp [stageOK, createStage, twKind]
        · exact migrate_card_tags_ev env _ _ _ e he
    · intro e he
      simp [hb, hc] at he
      subst he
      simp [stageOK, createStage, twKind]
  · intro e he
    simp [hb] at he
    subst he
    simp [stageOK, createStage, twKind]

theorem migrate_cards_ev (env : Env) (st : MigState) :
    ∀ e ∈ (migrate_cards env st).2, stageOK 3 [Kind.cards] e := by
  simp only [migrate_cards]
  intro e he
  simp only [List.mem_cons] at he
  rcases he with rfl | he
  · simp [stageOK, createStage, twKind]
  · exact stageOK_mono (fun k hk => by simp at hk)
      (runAll_ev_pred _ _ (migrate_single_card_ev env) _ _ e he)

theorem migrateOneComment_ev (env : Env) (ncid : Nat) (st : MigState)
    (c : CommentSrc) :
    ∀ e ∈ (migrateOneComment env ncid st c).2, stageOK 4 [] e := by
  simp only [migrateOneComment]
  cases htr : resultTruthy (env.post st.postCount) <;>
  · intro e he
    simp [htr] at he
    rcases he with rfl | rfl <;> simp [stageOK, createStage, twKind]

theorem migrateCommentsOfCard_ev (env : Env) (st : MigState) (pair : Nat × Nat) :
    ∀ e ∈ (migrateCommentsOfCard env st pair).2, stageOK 4 [Kind.comments] e := by
  simp only [migrateCommentsOfCard]
  intro e he
  simp only [List.mem_cons] at he
  rcases he with rfl | rfl | he
  · simp [stageOK, createStage, twKind]
  · simp [stageOK, createStage, twKind]
  · exact stageOK_mono (fun k hk => by simp at hk)
      (runAll_ev_pred _ _ (migrateOneComment_ev env pair.2) _ _ e he)

theorem migrate_comments_ev (env : Env) (st : MigState) :
    ∀ e ∈ (migrate_comments env st).2, stageOK 4 [Kind.comments] e := by
  simp only [migrate_comments]
  exact runAll_ev_pred _ _ (migrateCommentsOfCard_ev env) _ _

theorem migrateOneChecklist_ev (env : Env) (ncid : Nat) (st : MigState)
    (cl : ChecklistSrc) :
    ∀ e ∈ (migrateOneChecklist env ncid st cl).2, stageOK 5 [] e := by
  simp only [migrateOneChecklist]
  cases hres : resultId (env.post st.postCount)
  · intro e he
    simp [hres] at he
    rcases he with rfl | rfl <;> simp [stageOK, createStage, twKind]
  · intro e he
    simp only [hres, List.mem_append, List.mem_cons, List.not_mem_nil,
      or_false] at he
    rcases he with (rfl | rfl) | he
    · simp [stageOK, createStage, twKind]
    · simp [stageOK, createStage, twKind]
    · refine runAll_ev_pred _ _ ?_ _ _ e he
      intro st item e' he'
      simp at he'
      subst he'
      simp [stageOK, createStage, twKind]

theorem migrateChecklistsOfCard_ev (env : Env) (st : MigState)
    (pair : Nat × Nat) :
    ∀ e ∈ (migrateChecklistsOfCard env st pair).2,
      stageOK 5 [Kind.checklists] e := by
  simp only [migrateChecklistsOfCard]
  intro e he
  simp only [List.mem_cons] at he
  rcases he with rfl | rfl | he
  · simp [stageOK, createStage, twKind]
  · simp [stageOK, createStage, twKind]
  · exact stageOK_mono (fun k hk => by simp at hk)
      (runAll_ev_pred _ _ (migrateOneChecklist_ev env pair.2) _ _ e he)

theorem migrate_checklists_ev (env : Env) (st : MigState) :
    ∀ e ∈ (migrate_checklists env st).2, stageOK 5 [Kind.checklists] e := by
  simp only [migrate_checklists]
  exact runAll_ev_pred _ _ (migrateChecklistsOfCard_ev env) _ _

theorem migrateRelationsOfCard_ev (env : Env) (st : MigState) (pair : Nat × Nat) :
    ∀ e ∈ (migrateRelationsOfCard env st pair).2, stageOK 6 [] e := by
  simp only [migrateRelationsOfCard]
  intro e he
  simp only [List.mem_cons] at he
  rcases he with rfl | he
  · simp [stageOK, createStage, twKind]
  · refine runAll_ev_pred _ _ ?_ _ _ e he
    intro st child e' he'
    cases htr : truthyOptNat (pyGetOpt st.idMap.cards child.id) <;>
      simp [htr] at he'
    subst he'
    simp [stageOK, createStage, twKind]

theorem migrate_card_relations_ev (env : Env) (st : MigState) :
    ∀ e ∈ (migrate_card_relations env st).2, stageOK 6 [] e := by
  simp only [migrate_card_relations]
  exact runAll_ev_pred _ _ (migrateRelationsOfCard_ev env) _ _

/-- All stage numbers extracted from a trace whose events satisfy a
common stage discipline are that stage. -/
theorem filterMap_createStage_const (tr : List Ev) (i : Nat) (allowed : List Kind)
    (h : ∀ e ∈ tr, stageOK i allowed e) :
    ∀ x ∈ tr.filterMap createStage, x = i := by
  intro x hx
  rcases List.mem_filterMap.mp hx with ⟨e, he, hce⟩
  exact (h e he).1 x hce

theorem pairwise_le_of_const (l : List Nat) (i : Nat) (h : ∀ x ∈ l, x = i) :
    l.Pairwise (fun a b => a ≤ b) := by
  induction l with
  | nil => exact List.Pairwise.nil
  | cons a t ih =>
      refine List.Pairwise.cons ?_ (ih fun x hx => h x (List.mem_cons_of_mem _ hx))
      intro y hy
      rw [h a (List.mem_cons_self _ _), h y (List.mem_cons_of_mem _ hy)]

/-- Appending one constant-stage segment to a sorted trace of stages
bounded by `i` keeps it sorted and bounded by the new stage `j`. -/
theorem pairwise_le_append_segment (l1 l2 : List Nat) (i j : Nat)
    (p1 : l1.Pairwise (fun a b => a ≤ b)) (hle : ∀ x ∈ l1, x ≤ i)
    (h2 : ∀ y ∈ l2, y = j) (hij : i ≤ j) :
    ((l1 ++ l2).Pairwise (fun a b => a ≤ b)) ∧ (∀ x ∈ l1 ++ l2, x ≤ j) := by
  constructor
  · refine List.pairwise_append.mpr ⟨p1, pairwise_le_of_const l2 j h2, ?_⟩
    intro x hx y hy
    rw [h2 y hy]
    exact le_trans (hle x hx) hij
  · intro x hx
    rcases List.mem_append.mp hx with h | h
    · exact le_trans (hle x h) hij
    · rw [h2 x h]

/-- C8: in every migration run, the creation calls respect the fixed
dependency order — properties, then tags, then spaces with boards,
columns and lanes nested under their parent, then cards (with their tag
attachments), then comments, then checklists (with their items), then
card-to-card relations: the sequence of stage numbers of all creation
calls issued by `migrate_all` is non-decreasing, so no creation call of
a kind precedes the creation calls of the kinds listed earlier. -/
theorem migrate_all_stage_order (env : Env) (st : MigState) :
    ((migrate_all env st).2.filterMap createStage).Pairwise
      (fun a b => a ≤ b) := by
  simp only [migrate_all]
  rw [List.filterMap_append, List.filterMap_append, List.filterMap_append,
    List.filterMap_append, List.filterMap_append, List.filterMap_append]
  have h0 := filterMap_createStage_const _ _ _ (migrate_custom_properties_ev env st)
  have h1 := filterMap_createStage_const _ _ _ (migrate_tags_ev env
    (migrate_custom_properties env st).1)
  have h2 := filterMap_createStage_const _ _ _ (migrate_spaces_and_boards_ev env
    (migrate_tags env (migrate_custom_properties env st).1).1)
  have h3 := filterMap_createStage_const _ _ _ (migrate_cards_ev env
    (migrate_spaces_and_boards env
      (migrate_tags env (migrate_custom_properties env st).1).1).1)
  have h4 := filterMap_createStage_const _ _ _ (migrate_comments_ev env
    (migrate_cards env (migrate_spaces_and_boards env
      (migrate_tags env (migrate_custom_properties env st).1).1).1).1)
  have h5 := filterMap_createStage_const _ _ _ (migrate_checklists_ev env
    (migrate_comments env (migrate_cards env (migrate_spaces_and_boards env
      (migrate_tags env (migrate_custom_properties env st).1).1).1).1).1)
  have h6 := filterMap_createStage_const _ _ _ (migrate_card_relations_ev env
    (migrate_checklists env (migrate_comments env (migrate_cards env
      (migrate_spaces_and_boards env (migrate_tags env
        (migrate_custom_properties env st).1).1).1).1).1).1)
  have q1 := pairwise_le_append_segment _ _ 0 1
    (pairwise_le_of_const _ 0 h0) (fun x hx => le_of_eq (h0 x hx)) h1 (by omega)
  have q2 := pairwise_le_append_segment _ _ 1 2 q1.1 q1.2 h2 (by omega)
  have q3 := pairwise_le_append_segment _ _ 2 3 q2.1 q2.2 h3 (by omega)
  have q4 := pairwise_le_append_segment _ _ 3 4 q3.1 q3.2 h4 (by omega)
  have q5 := pairwise_le_append_segment _ _ 4 5 q4.1 q4.2 h5 (by omega)
  have q6 := pairwise_le_append_segment _ _ 5 6 q5.1 q5.2 h6 (by omega)
  exact q6.1

theorem countTotalWrites_cons (k : Kind) (e : Ev) (tr : List Ev) :
    countTotalWrites k (e :: tr) =
      (if twKind e = some k then 1 else 0) + countTotalWrites k tr := by
  unfold countTotalWrites
  rw [List.filter_cons]
  by_cases h : twKind e = some k
  · simp [h]
    omega
  · simp [h]

/-- A trace whose stage discipline allows no `total` write of kind `k`
writes that total zero times. -/
theorem countTW_zero_of_stageOK (k : Kind) (tr : List Ev) (i : Nat)
    (allowed : List Kind) (h : ∀ e ∈ tr, stageOK i allowed e)
    (hk : k ∉ allowed) : countTotalWrites k tr = 0 :=
  countTotalWrites_eq_zero k tr (fun e he hc => hk ((h e he).2 k hc))

theorem countTW_props_one (env : Env) (st : MigState) :
    countTotalWrites Kind.custom_properties
      (migrate_custom_properties env st).2 = 1 := by
  simp only [migrate_custom_properties]
  rw [countTotalWrites_cons,
    countTW_zero_of_stageOK _ _ 0 []
      (runAll_ev_pred _ _ (migrateOneProp_ev env) _ _) (by simp)]
  simp [twKind]

theorem countTW_tags_one (env : Env) (st : MigState) :
    countTotalWrites Kind.tags (migrate_tags env st).2 = 1 := by
  simp only [migrate_tags]
  rw [countTotalWrites_cons,
    countTW_zero_of_stageOK _ _ 1 []
      (runAll_ev_pred _ _ (migrateOneTag_ev env) _ _) (by simp)]
  simp [twKind]

theorem countTW_spaces_one (env : Env) (st : MigState) :
    countTotalWrites Kind.spaces (migrate_spaces_and_boards env st).2 = 1 := by
  simp only [migrate_spaces_and_boards]
  rw [countTotalWrites_cons,
    countTW_zero_of_stageOK _ _ 2 [Kind.boards]
      (runAll_ev_pred _ _ (migrateOneSpace_ev env) _ _) (by decide)]
  simp [twKind]

theorem countTW_cards_one (env : Env) (st : MigState) :
    countTotalWrites Kind.cards (migrate_cards env st).2 = 1 := by
  simp only [migrate_cards]
  rw [countTotalWrites_cons,
    countTW_zero_of_stageOK _ _ 3 []
      (runAll_ev_pred _ _ (migrate_single_card_ev env) _ _) (by simp)]
  simp [twKind]

/-- C9 (amended): in every run the Run Ledger's counters are naturals
(hence non-negative); the totals of custom properties, tags, spaces and
cards are each written exactly once, when that kind's source enumeration
completes; the totals of boards, comments and checklists are instead
accumulated incrementally (one write per parent, so several times in a
run); and the final statistics are exactly the replay of the run's
ledger events, each of which is a single `total` write or a unit
increment of one `migrated` or `failed` counter. -/
theorem ledger_counter_discipline (env : Env) (st : MigState) :
    countTotalWrites Kind.custom_properties (migrate_all env st).2 = 1 ∧
    countTotalWrites Kind.tags (migrate_all env st).2 = 1 ∧
    countTotalWrites Kind.spaces (migrate_all env st).2 = 1 ∧
    countTotalWrites Kind.cards (migrate_all env st).2 = 1 ∧
    (migrate_all env st).1.stats = applyEvs st.stats (migrate_all env st).2 := by
  refine ⟨?_, ?_, ?_, ?_, migrate_all_stats env st⟩
  · simp only [migrate_all]
    rw [countTotalWrites_append, countTotalWrites_append, countTotalWrites_append,
      countTotalWrites_append, countTotalWrites_append, countTotalWrites_append,
      countTW_props_one env st,
      countTW_zero_of_stageOK _ _ _ _ (migrate_tags_ev env _) (by decide),
      countTW_zero_of_stageOK _ _ _ _ (migrate_spaces_and_boards_ev env _)
        (by decide),
      countTW_zero_of_stageOK _ _ _ _ (migrate_cards_ev env _) (by decide),
      countTW_zero_of_stageOK _ _ _ _ (migrate_comments_ev env _) (by decide),
      countTW_zero_of_stageOK _ _ _ _ (migrate_checklists_ev env _) (by decide),
      countTW_zero_of_stageOK _ _ _ _ (migrate_card_relations_ev env _)
        (by decide)]
  · simp only [migrate_all]
    rw [countTotalWrites_append, countTotalWrites_append, countTotalWrites_append,
      countTotalWrites_append, countTotalWrites_append, countTotalWrites_append,
      countTW_tags_one env _,
      countTW_zero_of_stageOK _ _ _ _ (migrate_custom_properties_ev env _)
        (by decide),
      countTW_zero_of_stageOK _ _ _ _ (migrate_spaces_and_boards_ev env _)
        (by decide),
      countTW_zero_of_stageOK _ _ _ _ (migrate_cards_ev env _) (by decide),
      countTW_zero_of_stageOK _ _ _ _ (migrate_comments_ev env _) (by decide),
      countTW_zero_of_stageOK _ _ _ _ (migrate_checklists_ev env _) (by decide),
      countTW_zero_of_stageOK _ _ _ _ (migrate_card_relations_ev env _)
        (by decide)]
  · simp only [migrate_all]
    rw [countTotalWrites_append, countTotalWrites_append, countTotalWrites_append,
      countTotalWrites_append, countTotalWrites_append, countTotalWrites_append,
      countTW_spaces_one env _,
      countTW_zero_of_stageOK _ _ _ _ (migrate_custom_properties_ev env _)
        (by decide),
      countTW_zero_of_stageOK _ _ _ _ (migrate_tags_ev env _) (by decide),
      countTW_zero_of_stageOK _ _ _ _ (migrate_cards_ev env _) (by decide),
      countTW_zero_of_stageOK _ _ _ _ (migrate_comments_ev env _) (by decide),
      countTW_zero_of_stageOK _ _ _ _ (migrate_checklists_ev env _) (by decide),
      countTW_zero_of_stageOK _ _ _ _ (migrate_card_relations_ev env _)
        (by decide)]
  · simp only [migrate_all]
    rw [countTotalWrites_append, countTotalWrites_append, countTotalWrites_append,
      countTotalWrites_append, countTotalWrites_append, countTotalWrites_append,
      countTW_cards_one env _,
      countTW_zero_of_stageOK _ _ _ _ (migrate_custom_properties_ev env _)
        (by decide),
      countTW_zero_of_stageOK _ _ _ _ (migrate_tags_ev env _) (by decide),
      countTW_zero_of_stageOK _ _ _ _ (migrate_spaces_and_boards_ev env _)
        (by decide),
      countTW_zero_of_stageOK _ _ _ _ (migrate_comments_ev env _) (by decide),
      countTW_zero_of_stageOK _ _ _ _ (migrate_checklists_ev env _) (by decide),
      countTW_zero_of_stageOK _ _ _ _ (migrate_card_relations_ev env _)
        (by decide)]

/-- Counterexample for C9: a run over two spaces holding one board each
writes the boards `total` counter twice (once per space), not exactly
once per kind as claimed. -/
theorem ledger_total_written_twice_cex :
    countTotalWrites Kind.boards
      (migrate_all envTwoLiveSpaces MigState.start).2 = 2 ∧
    (2 : Nat) ≠ 1 := by
  constructor
  · rfl
  · decide

/-- Counterexample for C6: a run over 2 spaces with 1 archived reports
the spaces counters as total 2, migrated 1 — the archived space is NOT
excluded from the total, contrary to the claimed `total 1`. -/
theorem archived_space_total_cex :
    (migrate_spaces_and_boards envTwoSpaces MigState.start).1.stats.spaces =
      ⟨2, 1, 0⟩ ∧ (2 : Nat) ≠ 1 := by
  constructor
  · rfl
  · decide

/-- C6 (amended): an archived space is skipped entirely — no creation
request is issued for it and no boards are fetched for it — but it is
still counted in the spaces total: a run over two spaces whose first is
archived emits only the live space's events and ends with spaces total
2, one more migrated, failed unchanged. -/
theorem archived_space_skipped_but_counted (env : Env) (st : MigState)
    (s1 s2 : SpaceSrc) (tid : Nat)
    (harch : s1.archived = true) (hlive : s2.archived = false)
    (hspaces : env.spaces = [s1, s2])
    (hpost : resultId (env.post st.postCount) = some tid)
    (hboards : env.boardsOf s2.id = []) :
    (migrate_spaces_and_boards env st).2 =
      [.totalWrite Kind.spaces 2,
        .postSpace s2.id ⟨s2.title.getD (String.append "Space " (toString s2.id)),
          s2.access.getD "private"⟩,
        .migratedInc Kind.spaces, .fetchBoards s2.id,
        .totalWrite Kind.boards st.stats.boards.total] ∧
    (migrate_spaces_and_boards env st).1.stats.spaces =
      ⟨2, st.stats.spaces.migrated + 1, st.stats.spaces.failed⟩ := by
  constructor <;>
    simp [migrate_spaces_and_boards, hspaces, runAll, migrateOneSpace, harch,
      hlive, hpost, migrate_boards_in_space, hboards, Stats.setTotal,
      Stats.incMigrated, Stats.get, Stats.set]

/-- Witness for C6 at the concrete two-space environment. -/
theorem archived_space_skipped_but_counted_witness :
    ((⟨1, some "Arch", true, none⟩ : SpaceSrc).archived = true ∧
      (⟨2, some "Live", false, none⟩ : SpaceSrc).archived = false ∧
      envTwoSpaces.spaces =
        [⟨1, some "Arch", true, none⟩, ⟨2, some "Live", false, none⟩] ∧
      resultId (envTwoSpaces.post MigState.start.postCount) = some 77 ∧
      envTwoSpaces.boardsOf (⟨2, some "Live", false, none⟩ : SpaceSrc).id = []) ∧
    (migrate_spaces_and_boards envTwoSpaces MigState.start).1.stats.spaces =
      ⟨2, MigState.start.stats.spaces.migrated + 1,
        MigState.start.stats.spaces.failed⟩ :=
  ⟨⟨rfl, rfl, rfl, rfl, rfl⟩,
    (archived_space_skipped_but_counted envTwoSpaces MigState.start
      ⟨1, some "Arch", true, none⟩ ⟨2, some "Live", false, none⟩ 77
      rfl rfl rfl rfl rfl).2⟩

/-- C4: a card whose source board id — or, with the board mapped, whose
source column id — has no truthy entry in the identifier map is never
sent to the target: `migrate_single_card` issues no request, increments
the cards failed counter by exactly one, leaves migrated untouched, and
the card loop goes on to process the remaining records. -/
theorem card_unmapped_dependency_skipped (env : Env) (st : MigState)
    (card : CardSrc)
    (h : truthyOptNat (pyGetOpt st.idMap.boards card.board_id) = false ∨
      (truthyOptNat (pyGetOpt st.idMap.boards card.board_id) = true ∧
        truthyOptNat (pyGetOpt st.idMap.columns card.column_id) = false)) :
    migrate_single_card env st card =
      ({ st with stats := st.stats.incFailed Kind.cards },
        [.failedInc Kind.cards]) ∧
    ∀ rest : List CardSrc,
      runAll (migrate_single_card env) st (card :: rest) =
        ((runAll (migrate_single_card env)
            { st with stats := st.stats.incFailed Kind.cards } rest).1,
          .failedInc Kind.cards ::
            (runAll (migrate_single_card env)
              { st with stats := st.stats.incFailed Kind.cards } rest).2) := by
  have h1 : migrate_single_card env st card =
      ({ st with stats := st.stats.incFailed Kind.cards },
        [.failedInc Kind.cards]) := by
    simp only [migrate_single_card]
    rcases h with h | ⟨hb, hc⟩
    · simp [h]
    · simp [hb, hc]
  refine ⟨h1, fun rest => ?_⟩
  simp only [runAll, h1]
  simp

/-- Witness for C4: a card pointing at board 3 while the identifier map
is empty is skipped and counted failed. -/
theorem card_unmapped_dependency_skipped_witness :
    (truthyOptNat (pyGetOpt MigState.start.idMap.boards
        (⟨5, none, none, some 3, none, none, none, none, none, [], []⟩ :
          CardSrc).board_id) = false ∨
      (truthyOptNat (pyGetOpt MigState.start.idMap.boards
        (⟨5, none, none, some 3, none, none, none, none, none, [], []⟩ :
          CardSrc).board_id) = true ∧
        truthyOptNat (pyGetOpt MigState.start.idMap.columns
        (⟨5, none, none, some 3, none, none, none, none, none, [], []⟩ :
          CardSrc).column_id) = false)) ∧
    migrate_single_card envTwoSpaces MigState.start
        ⟨5, none, none, some 3, none, none, none, none, none, [], []⟩ =
      ({ MigState.start with
          stats := MigState.start.stats.incFailed Kind.cards },
        [.failedInc Kind.cards]) :=
  ⟨Or.inl rfl,
    (card_unmapped_dependency_skipped envTwoSpaces MigState.start
      ⟨5, none, none, some 3, none, none, none, none, none, [], []⟩
      (Or.inl rfl)).1⟩

/-- C10: a card whose lane id is present but unmapped is NOT skipped:
the creation request is still issued with the `lane_id` field null (the
unmapped lane is silently dropped) — unlike an unmapped board or column
id, which makes the card skipped and counted failed. -/
theorem card_unmapped_lane_sent_null (env : Env) (st : MigState)
    (card : CardSrc) (l b c : Nat)
    (hlane : card.lane_id = some l) (hl0 : (l == 0) = false)
    (hlmap : pyGet st.idMap.lanes l = none)
    (hb : pyGetOpt st.idMap.boards card.board_id = some b)
    (hb0 : (b == 0) = false)
    (hc : pyGetOpt st.idMap.columns card.column_id = some c)
    (hc0 : (c == 0) = false) :
    (newCardPayload st card b c none).lane_id = none ∧
    (migrate_single_card env st card).2.head? =
      some (.postCard card.id (newCardPayload st card b c none)) ∧
    ∀ st2 : MigState,
      truthyOptNat (pyGetOpt st2.idMap.boards card.board_id) = false →
      migrate_single_card env st2 card =
        ({ st2 with stats := st2.stats.incFailed Kind.cards },
          [.failedInc Kind.cards]) := by
  refine ⟨?_, ?_, ?_⟩
  · unfold newCardPayload
    by_cases hp : card.properties ≠ [] ∧
        rewriteProps st.idMap.properties card.properties ≠ []
    · simp [hp]
    · simp [hp]
  · simp only [migrate_single_card, hb, hc, hlane]
    simp only [truthyOptNat, pyGetOpt, hl0, hb0, hc0, hlmap, Bool.not_false,
      not_true, Option.getD_some]
    simp only [Bool.not_eq_true, if_false]
    cases resultId (env.post st.postCount) <;> simp
  · intro st2 h2
    simp only [migrate_single_card]
    simp [h2]

/-- Witness for C10: the card with unmapped lane 7 is posted, lane null. -/
theorem card_unmapped_lane_sent_null_witness :
    (cardLane7.lane_id = some 7 ∧ ((7 : Nat) == 0) = false ∧
      pyGet stWithMaps.idMap.lanes 7 = none ∧
      pyGetOpt stWithMaps.idMap.boards cardLane7.board_id = some 8 ∧
      ((8 : Nat) == 0) = false ∧
      pyGetOpt stWithMaps.idMap.columns cardLane7.column_id = some 9 ∧
      ((9 : Nat) == 0) = false) ∧
    (newCardPayload stWithMaps cardLane7 8 9 none).lane_id = none ∧
    (migrate_single_card envTwoSpaces stWithMaps cardLane7).2.head? =
      some (.postCard cardLane7.id (newCardPayload stWithMaps cardLane7 8 9 none)) :=
  ⟨⟨rfl, by decide, rfl, rfl, by decide, rfl, by decide⟩,
    (card_unmapped_lane_sent_null envTwoSpaces stWithMaps cardLane7 7 8 9
      rfl (by decide) rfl rfl (by decide) rfl (by decide)).1,
    (card_unmapped_lane_sent_null envTwoSpaces stWithMaps cardLane7 7 8 9
      rfl (by decide) rfl rfl (by decide) rfl (by decide)).2.1⟩
